import Mathlib

/-!
Verification development for the letsdebug diagnostic engine.

Shallow embedding of the Go sources: the Problem/Severity model
(problem.go), the domain normalization helpers (dns_util.go), the checker
orchestrator (letsdebug.go / checker.go), the per-scan DNS lookup cache
(context.go), the async checker block (tlssni0102.go, last revision), the
HTTP probe's redirect hook and response evaluation (http_util.go), and the
CAA policy chain walker (generic.go) together with the registered checkers
(dns01.go, http01.go latest revision).

Go machine values are modelled as follows: strings as Lean `String`
(Go string functions are re-defined below over `String.data`, restricted
to the ASCII behavior the engine relies on), slices as `List`, maps used
as registries as explicit lists, `error` values as `Option`/`Except`
with dedicated inductives where the code distinguishes error identities,
and goroutine interleavings as explicit schedules over small-step state
machines.
-/

namespace Letsdebug

/-! ## Problem model (problem.go) -/

/-- Problem represents an issue found by one of the checkers
(problem.go lines 13-18). `Severity` is a string in the Go source
(`SeverityLevel string`). -/
structure Problem where
  Name : String
  Explanation : String
  Detail : String
  Severity : String
  deriving DecidableEq, Repr

/-- SeverityFatal (problem.go line 21). -/
def SeverityFatal : String := "Fatal"

/-- SeverityError (problem.go line 22). -/
def SeverityError : String := "Error"

/-- SeverityWarning (problem.go line 23). -/
def SeverityWarning : String := "Warning"

/-- The zero value of the Problem struct: Go's `Problem{}`. -/
def Problem.zero : Problem := ⟨"", "", "", ""⟩

/-- Problem.IsZero (problem.go lines 30-32). -/
def Problem.IsZero (p : Problem) : Bool := p.Name == ""

/-- hasFatalProblem (problem.go lines 34-42). -/
def hasFatalProblem (probs : List Problem) : Bool :=
  probs.any (fun p => p.Severity == SeverityFatal)

/-- internalProblem (problem.go lines 44-51). -/
def internalProblem (message : String) (level : String) : Problem :=
  { Name := "InternalProblem"
    Explanation := "An internal error occured while checking the domain"
    Detail := message
    Severity := level }

/-- dnsLookupFailed (problem.go lines 53-60). -/
def dnsLookupFailed (name rrType errText : String) : Problem :=
  { Name := "DNSLookupFailed"
    Explanation := "A fatal issue occured during the DNS lookup process for " ++
      name ++ "/" ++ rrType ++ "."
    Detail := errText
    Severity := SeverityFatal }

/-- Modelled from the spec: `debugProblem` is used by the checkers
(generic.go, http01.go) but its definition, along with the `Debug`
severity level, is in a revision of problem.go that is not part of src/.
The spec gives `Severity: one of Fatal | Error | Warning | Info | Debug`
and says Debug findings are informational only and filtered from default
display; debugProblem constructs such a Debug-severity Problem from a
name, an explanation and a detail dump. -/
def debugProblem (name explanation detail : String) : Problem :=
  { Name := name, Explanation := explanation, Detail := detail, Severity := "Debug" }

/-! ## Go string helpers (strings package behavior used by the engine) -/

/-- Whitespace predicate of Go's `unicode.IsSpace`, restricted to the
ASCII whitespace characters (the engine only relies on these). -/
def goIsSpace (c : Char) : Bool :=
  c == ' ' || c == '\t' || c == '\n' || c == '\x0b' || c == '\x0c' || c == '\r'

/-- strings.TrimSpace: drop whitespace from both ends. -/
def trimSpace (s : String) : String :=
  ⟨((s.data.dropWhile goIsSpace).reverse.dropWhile goIsSpace).reverse⟩

/-- strings.TrimSuffix(s, "."): remove one trailing dot if present. -/
def trimSuffixDot (s : String) : String :=
  if s.data.getLast? = some '.' then ⟨s.data.dropLast⟩ else s

/-- strings.ToLower, as the character-wise lowercase map (Go lowercases
rune by rune; `Char.toLower` covers the ASCII range the engine uses). -/
def goToLower (s : String) : String := ⟨s.data.map Char.toLower⟩

/-- strings.HasSuffix. -/
def goHasSuffix (s suf : String) : Bool := suf.data.isSuffixOf s.data

/-- strings.Trim(s, " \t"): drop spaces and tabs from both ends. -/
def goTrimSpaceTab (s : String) : String :=
  ⟨((s.data.dropWhile (fun c => c == ' ' || c == '\t')).reverse.dropWhile
      (fun c => c == ' ' || c == '\t')).reverse⟩

/-- normalizeFqdn (dns_util.go lines 127-131): trim whitespace, trim one
trailing dot, lowercase. -/
def normalizeFqdn (name : String) : String :=
  goToLower (trimSuffixDot (trimSpace name))

/-! ## Orchestrator model (letsdebug.go Check, checker.go) -/

/-- The error component of a checker's return value:
the `errNotApplicable` sentinel (checker.go line 20) or any other error. -/
inductive CheckerErr
  | notApplicable
  | other (msg : String)
  deriving DecidableEq, Repr

/-- The behavior of one invocation of `checker.Check`: it either returns
`(probs, err)` like the Go interface, or panics with a value. -/
inductive CheckerResult
  | ret (probs : List Problem) (err : Option CheckerErr)
  | panics (v : String)
  deriving DecidableEq, Repr

/-- The scan-level error returned by Check: either a checker's own error
propagated by `return nil, err`, or `fmt.Errorf("panic: %v", r)` built by
the deferred recover. -/
inductive ScanError
  | fromChecker (msg : String)
  | fromPanic (v : String)
  deriving DecidableEq, Repr

/-- A DNS query issued through the scan context: (name, numeric RR type). -/
abbrev Query := String × Nat

/-- A checker, as the orchestrator sees it: a function of the (already
normalized) domain and the validation method. Alongside the Go return
value we record the DNS queries the checker issued, so that network
activity is observable in the model. -/
abbrev Checker := String → String → List Query × CheckerResult

/-- The outcome of one `Check` call: the returned problems and error,
plus instrumentation — how many checkers were invoked, and which DNS
queries were issued. -/
structure CheckRun where
  probs : List Problem
  err : Option ScanError
  invoked : Nat
  queries : List Query
  deriving DecidableEq, Repr

/-- The loop body of Check (letsdebug.go lines 26-40): run each checker;
on success append its problems (Go appends only when non-empty) and stop
as soon as the cumulative list has a Fatal problem; skip checkers that
return errNotApplicable; `return nil, err` on any other error; a panic is
recovered by the deferred function, which sets the error to the panic
value while the named return `probs` keeps everything collected so far. -/
def checkLoop (domain method : String) : List Checker → List Problem → CheckRun
  | [], acc => ⟨acc, none, 0, []⟩
  | chk :: rest, acc =>
    match chk domain method with
    | (qs, .ret checkerProbs none) =>
      let acc' := if checkerProbs.length > 0 then acc ++ checkerProbs else acc
      if hasFatalProblem acc' then ⟨acc', none, 1, qs⟩
      else
        let res := checkLoop domain method rest acc'
        ⟨res.probs, res.err, res.invoked + 1, qs ++ res.queries⟩
    | (qs, .ret _ (some .notApplicable)) =>
      let res := checkLoop domain method rest acc
      ⟨res.probs, res.err, res.invoked + 1, qs ++ res.queries⟩
    | (qs, .ret _ (some (.other e))) => ⟨[], some (.fromChecker e), 1, qs⟩
    | (qs, .panics v) => ⟨acc, some (.fromPanic v), 1, qs⟩

/-- Check (letsdebug.go lines 15-41): normalize the domain once, then run
the checkers in order starting from an empty problem list. -/
def Check (checkers : List Checker) (domain method : String) : CheckRun :=
  checkLoop (normalizeFqdn domain) method checkers []

/-- Go's conditional append `if len(l) > 0 then acc ++ l else acc` is
plain append. -/
theorem append_if_nonempty (acc l : List Problem) :
    (if l.length > 0 then acc ++ l else acc) = acc ++ l := by
  cases l <;> simp

/-- Helper for the fatal-stop property: if running a prefix of checkers
from an accumulator without Fatal problems invokes every one of them and
ends with no error but a Fatal cumulative list, then the stop happened at
the prefix's last checker, and appending further checkers changes
nothing: none of them is ever invoked. -/
theorem checkLoop_fatal_extend (d m : String) (post : List Checker) :
    ∀ (pre : List Checker) (acc probs : List Problem) (qs : List Query),
      hasFatalProblem acc = false →
      checkLoop d m pre acc = ⟨probs, none, pre.length, qs⟩ →
      hasFatalProblem probs = true →
      checkLoop d m (pre ++ post) acc = ⟨probs, none, pre.length, qs⟩ := by
  intro pre
  induction pre with
  | nil =>
    intro acc probs qs hacc hrun hfat
    simp only [checkLoop, CheckRun.mk.injEq, List.length_nil] at hrun
    rw [← hrun.1, hacc] at hfat
    cases hfat
  | cons chk rest ih =>
    intro acc probs qs hacc hrun hfat
    rcases hc : chk d m with ⟨qs0, r⟩
    cases r with
    | ret ps oerr =>
      cases oerr with
      | none =>
        by_cases hf : hasFatalProblem (acc ++ ps) = true
        · rw [show checkLoop d m (chk :: rest) acc = ⟨acc ++ ps, none, 1, qs0⟩ from by
            simp [checkLoop, hc, append_if_nonempty, hf]] at hrun
          rw [CheckRun.mk.injEq] at hrun
          obtain ⟨h1, -, h3, h4⟩ := hrun
          have hrest : rest = [] := by
            cases rest with
            | nil => rfl
            | cons a l => simp only [List.length_cons] at h3; omega
          subst hrest
          subst h1
          subst h4
          simp [checkLoop, hc, append_if_nonempty, hf]
        · have hf' : hasFatalProblem (acc ++ ps) = false := by simpa using hf
          rcases hres : checkLoop d m rest (acc ++ ps) with ⟨rp, re, ri, rq⟩
          rw [show checkLoop d m (chk :: rest) acc = ⟨rp, re, ri + 1, qs0 ++ rq⟩ from by
            simp [checkLoop, hc, append_if_nonempty, hf, hres]] at hrun
          rw [CheckRun.mk.injEq] at hrun
          obtain ⟨h1, h2, h3, h4⟩ := hrun
          subst h1
          subst h2
          subst h4
          have hri : ri = rest.length := by simp at h3; omega
          subst hri
          have hext := ih (acc ++ ps) rp rq hf' hres hfat
          simp [checkLoop, hc, append_if_nonempty, hf, hext]
      | some cerr =>
        cases cerr with
        | notApplicable =>
          rcases hres : checkLoop d m rest acc with ⟨rp, re, ri, rq⟩
          rw [show checkLoop d m (chk :: rest) acc = ⟨rp, re, ri + 1, qs0 ++ rq⟩ from by
            simp [checkLoop, hc, hres]] at hrun
          rw [CheckRun.mk.injEq] at hrun
          obtain ⟨h1, h2, h3, h4⟩ := hrun
          subst h1
          subst h2
          subst h4
          have hri : ri = rest.length := by simp at h3; omega
          subst hri
          have hext := ih acc rp rq hacc hres hfat
          simp [checkLoop, hc, hext]
        | other e =>
          rw [show checkLoop d m (chk :: rest) acc =
              ⟨[], some (.fromChecker e), 1, qs0⟩ from by simp [checkLoop, hc]] at hrun
          rw [CheckRun.mk.injEq] at hrun
          exact absurd hrun.2.1 (by simp)
    | panics v =>
      rw [show checkLoop d m (chk :: rest) acc =
          ⟨acc, some (.fromPanic v), 1, qs0⟩ from by simp [checkLoop, hc]] at hrun
      rw [CheckRun.mk.injEq] at hrun
      exact absurd hrun.2.1 (by simp)

/-- Claim C1: for every checker sequence and every (domain, method)
input, Check runs the registered checkers in their fixed order, and
immediately after any checker whose completion leaves the cumulative
collected Problem list containing a Fatal Problem it stops: decomposing
the sequence as `pre ++ post` where running `pre` alone invokes all of
`pre` (so the Fatal appeared exactly after its last checker) and returns
a Fatal cumulative list with nil error, the full run invokes exactly the
checkers of `pre` — no checker of `post` is ever invoked — and returns
exactly the Problems collected so far with a nil error. -/
theorem Check_stops_on_cumulative_fatal
    (pre post : List Checker) (domain method : String)
    (probs : List Problem) (qs : List Query)
    (hpre : checkLoop (normalizeFqdn domain) method pre [] =
      ⟨probs, none, pre.length, qs⟩)
    (hfatal : hasFatalProblem probs = true) :
    Check (pre ++ post) domain method = ⟨probs, none, pre.length, qs⟩ :=
  checkLoop_fatal_extend (normalizeFqdn domain) method post pre [] probs qs rfl
    hpre hfatal

/-! ### Sample checkers (spy checkers, as in the repository's TestCheck) -/

/-- A Warning-severity test problem. -/
def warnProblem : Problem := ⟨"TestWarning", "w", "", "Warning"⟩

/-- A Fatal-severity test problem. -/
def fatalProblem : Problem := ⟨"TestFatal", "f", "", "Fatal"⟩

/-- A checker that succeeds with one Warning problem. -/
def warnChecker : Checker := fun _ _ => ([], .ret [warnProblem] none)

/-- A checker that succeeds with one Fatal problem. -/
def fatalChecker : Checker := fun _ _ => ([], .ret [fatalProblem] none)

/-- A checker that panics. -/
def panicChecker : Checker := fun _ _ => ([], .panics "checker exploded")

/-- A checker that declines with the errNotApplicable sentinel. -/
def naChecker : Checker := fun _ _ => ([], .ret [] (some .notApplicable))

/-- A checker that fails with a non-sentinel error. -/
def errChecker : Checker := fun _ _ => ([], .ret [] (some (.other "dial failure")))

/-- Witness for C1 at a concrete input: with a Warning checker followed by
a Fatal checker, the two trailing checkers are never invoked and the two
collected problems come back with a nil error. -/
theorem Check_stops_on_cumulative_fatal_witness :
    Check [warnChecker, fatalChecker, warnChecker, errChecker]
      "example.org" "http-01" = ⟨[warnProblem, fatalProblem], none, 2, []⟩ :=
  Check_stops_on_cumulative_fatal [warnChecker, fatalChecker]
    [warnChecker, errChecker] "example.org" "http-01"
    [warnProblem, fatalProblem] [] (by decide) (by decide)

/-! ### Error reporting of Check (claim C2) -/

/-- A checker result that the orchestrator does not turn into a scan
error: a successful return or the errNotApplicable sentinel. -/
def CheckerResult.isBenign : CheckerResult → Bool
  | .ret _ none => true
  | .ret _ (some .notApplicable) => true
  | _ => false

/-- The scan error a single checker result gives rise to, if any. -/
def CheckerResult.scanError : CheckerResult → Option ScanError
  | .ret _ (some (.other e)) => some (.fromChecker e)
  | .panics v => some (.fromPanic v)
  | _ => none

/-- Helper: if every checker's outcome is benign, the loop reports no
error. -/
theorem checkLoop_err_none (d m : String) :
    ∀ (cs : List Checker) (acc : List Problem),
      (∀ c ∈ cs, ((c d m).2).isBenign = true) →
      (checkLoop d m cs acc).err = none := by
  intro cs
  induction cs with
  | nil => intro acc _; rfl
  | cons chk rest ih =>
    intro acc h
    have hchk := h chk (by simp)
    have hrest : ∀ c ∈ rest, ((c d m).2).isBenign = true :=
      fun c hc => h c (by simp [hc])
    rcases hc : chk d m with ⟨qs0, r⟩
    rw [hc] at hchk
    cases r with
    | ret ps oerr =>
      cases oerr with
      | none =>
        by_cases hf : hasFatalProblem (if ps.length > 0 then acc ++ ps else acc) = true
        · simp [checkLoop, hc, hf]
        · simp [checkLoop, hc, hf, ih _ hrest]
      | some cerr =>
        cases cerr with
        | notApplicable => simp [checkLoop, hc, ih _ hrest]
        | other e => simp [CheckerResult.isBenign] at hchk
    | panics v => simp [CheckerResult.isBenign] at hchk

/-- Helper: a reported scan error always comes from some checker in the
list, as that checker's own error or recovered panic value. -/
theorem checkLoop_err_source (d m : String) :
    ∀ (cs : List Checker) (acc : List Problem) (e : ScanError),
      (checkLoop d m cs acc).err = some e →
      ∃ c ∈ cs, ((c d m).2).scanError = some e := by
  intro cs
  induction cs with
  | nil => intro acc e h; cases h
  | cons chk rest ih =>
    intro acc e h
    rcases hc : chk d m with ⟨qs0, r⟩
    cases r with
    | ret ps oerr =>
      cases oerr with
      | none =>
        by_cases hf : hasFatalProblem (if ps.length > 0 then acc ++ ps else acc) = true
        · rw [show (checkLoop d m (chk :: rest) acc).err = none from by
            simp [checkLoop, hc, hf]] at h
          cases h
        · rw [show (checkLoop d m (chk :: rest) acc).err =
              (checkLoop d m rest (if ps.length > 0 then acc ++ ps else acc)).err from by
            simp [checkLoop, hc, hf]] at h
          obtain ⟨c, hmem, hsrc⟩ := ih _ e h
          exact ⟨c, by simp [hmem], hsrc⟩
      | some cerr =>
        cases cerr with
        | notApplicable =>
          rw [show (checkLoop d m (chk :: rest) acc).err =
              (checkLoop d m rest acc).err from by simp [checkLoop, hc]] at h
          obtain ⟨c, hmem, hsrc⟩ := ih _ e h
          exact ⟨c, by simp [hmem], hsrc⟩
        | other e' =>
          rw [show (checkLoop d m (chk :: rest) acc).err =
              some (.fromChecker e') from by simp [checkLoop, hc]] at h
          exact ⟨chk, by simp, by simp [hc, CheckerResult.scanError, ← Option.some_inj.mp h]⟩
    | panics v =>
      rw [show (checkLoop d m (chk :: rest) acc).err =
          some (.fromPanic v) from by simp [checkLoop, hc]] at h
      exact ⟨chk, by simp, by simp [hc, CheckerResult.scanError, ← Option.some_inj.mp h]⟩

/-- Helper: when the scan error is a checker's returned error (not a
panic), Check discarded the partial problems: `return nil, err`. -/
theorem checkLoop_fromChecker_nil (d m : String) :
    ∀ (cs : List Checker) (acc : List Problem) (s : String),
      (checkLoop d m cs acc).err = some (.fromChecker s) →
      (checkLoop d m cs acc).probs = [] := by
  intro cs
  induction cs with
  | nil => intro acc s h; cases h
  | cons chk rest ih =>
    intro acc s h
    rcases hc : chk d m with ⟨qs0, r⟩
    cases r with
    | ret ps oerr =>
      cases oerr with
      | none =>
        by_cases hf : hasFatalProblem (if ps.length > 0 then acc ++ ps else acc) = true
        · rw [show (checkLoop d m (chk :: rest) acc).err = none from by
            simp [checkLoop, hc, hf]] at h
          cases h
        · rw [show (checkLoop d m (chk :: rest) acc).err =
              (checkLoop d m rest (if ps.length > 0 then acc ++ ps else acc)).err from by
            simp [checkLoop, hc, hf]] at h
          rw [show (checkLoop d m (chk :: rest) acc).probs =
              (checkLoop d m rest (if ps.length > 0 then acc ++ ps else acc)).probs from by
            simp [checkLoop, hc, hf]]
          exact ih _ s h
      | some cerr =>
        cases cerr with
        | notApplicable =>
          rw [show (checkLoop d m (chk :: rest) acc).err =
              (checkLoop d m rest acc).err from by simp [checkLoop, hc]] at h
          rw [show (checkLoop d m (chk :: rest) acc).probs =
              (checkLoop d m rest acc).probs from by simp [checkLoop, hc]]
          exact ih _ s h
        | other e' => simp [checkLoop, hc]
    | panics v =>
      rw [show (checkLoop d m (chk :: rest) acc).err =
          some (.fromPanic v) from by simp [checkLoop, hc]] at h
      cases h

/-- Helper: a checker that panics after a fully-run, non-fatal prefix
makes the scan stop there with the recovered panic as error, while the
problems collected so far are kept by the named return value. -/
theorem checkLoop_panics_extend (d m : String) (post : List Checker)
    (chk : Checker) (v : String) (hpanic : (chk d m).2 = .panics v) :
    ∀ (pre : List Checker) (acc probs : List Problem) (qs : List Query),
      hasFatalProblem acc = false →
      checkLoop d m pre acc = ⟨probs, none, pre.length, qs⟩ →
      hasFatalProblem probs = false →
      checkLoop d m (pre ++ chk :: post) acc =
        ⟨probs, some (.fromPanic v), pre.length + 1, qs ++ (chk d m).1⟩ := by
  intro pre
  induction pre with
  | nil =>
    intro acc probs qs hacc hrun hfat
    rw [show checkLoop d m [] acc = ⟨acc, none, 0, []⟩ from rfl,
      CheckRun.mk.injEq] at hrun
    obtain ⟨h1, -, -, h4⟩ := hrun
    subst h1
    subst h4
    rcases hc : chk d m with ⟨qs0, r⟩
    rw [hc] at hpanic
    simp only at hpanic
    subst hpanic
    simp [checkLoop, hc]
  | cons chk0 rest ih =>
    intro acc probs qs hacc hrun hfat
    rcases hc : chk0 d m with ⟨qs0, r⟩
    cases r with
    | ret ps oerr =>
      cases oerr with
      | none =>
        by_cases hf : hasFatalProblem (acc ++ ps) = true
        · rw [show checkLoop d m (chk0 :: rest) acc = ⟨acc ++ ps, none, 1, qs0⟩ from by
            simp [checkLoop, hc, append_if_nonempty, hf]] at hrun
          rw [CheckRun.mk.injEq] at hrun
          obtain ⟨h1, -, -, -⟩ := hrun
          rw [h1] at hf
          rw [hf] at hfat
          cases hfat
        · have hf' : hasFatalProblem (acc ++ ps) = false := by simpa using hf
          rcases hres : checkLoop d m rest (acc ++ ps) with ⟨rp, re, ri, rq⟩
          rw [show checkLoop d m (chk0 :: rest) acc = ⟨rp, re, ri + 1, qs0 ++ rq⟩ from by
            simp [checkLoop, hc, append_if_nonempty, hf, hres]] at hrun
          rw [CheckRun.mk.injEq] at hrun
          obtain ⟨h1, h2, h3, h4⟩ := hrun
          subst h1
          subst h2
          subst h4
          have hri : ri = rest.length := by simp at h3; omega
          subst hri
          have hext := ih (acc ++ ps) rp rq hf' hres hfat
          simp [checkLoop, hc, append_if_nonempty, hf, hext]
      | some cerr =>
        cases cerr with
        | notApplicable =>
          rcases hres : checkLoop d m rest acc with ⟨rp, re, ri, rq⟩
          rw [show checkLoop d m (chk0 :: rest) acc = ⟨rp, re, ri + 1, qs0 ++ rq⟩ from by
            simp [checkLoop, hc, hres]] at hrun
          rw [CheckRun.mk.injEq] at hrun
          obtain ⟨h1, h2, h3, h4⟩ := hrun
          subst h1
          subst h2
          subst h4
          have hri : ri = rest.length := by simp at h3; omega
          subst hri
          have hext := ih acc rp rq hacc hres hfat
          simp [checkLoop, hc, hext]
        | other e =>
          rw [show checkLoop d m (chk0 :: rest) acc =
              ⟨[], some (.fromChecker e), 1, qs0⟩ from by simp [checkLoop, hc]] at hrun
          rw [CheckRun.mk.injEq] at hrun
          exact absurd hrun.2.1 (by simp)
    | panics v' =>
      rw [show checkLoop d m (chk0 :: rest) acc =
          ⟨acc, some (.fromPanic v'), 1, qs0⟩ from by simp [checkLoop, hc]] at hrun
      rw [CheckRun.mk.injEq] at hrun
      exact absurd hrun.2.1 (by simp)

/-- Helper: an errNotApplicable checker anywhere in the sequence changes
neither the collected problems nor the reported error. -/
theorem checkLoop_na_skip (d m : String) (chk : Checker)
    (junk : List Problem)
    (hna : (chk d m).2 = .ret junk (some .notApplicable)) :
    ∀ (cs1 cs2 : List Checker) (acc : List Problem),
      (checkLoop d m (cs1 ++ chk :: cs2) acc).probs =
        (checkLoop d m (cs1 ++ cs2) acc).probs ∧
      (checkLoop d m (cs1 ++ chk :: cs2) acc).err =
        (checkLoop d m (cs1 ++ cs2) acc).err := by
  intro cs1
  induction cs1 with
  | nil =>
    intro cs2 acc
    rcases hc : chk d m with ⟨qs0, r⟩
    rw [hc] at hna
    simp only at hna
    subst hna
    simp [checkLoop, hc]
  | cons chk0 rest ih =>
    intro cs2 acc
    rcases hc : chk0 d m with ⟨qs0, r⟩
    cases r with
    | ret ps oerr =>
      cases oerr with
      | none =>
        by_cases hf : hasFatalProblem (if ps.length > 0 then acc ++ ps else acc) = true
        · constructor <;> simp [checkLoop, hc, hf]
        · constructor <;> simp [checkLoop, hc, hf, (ih cs2 _).1, (ih cs2 _).2]
      | some cerr =>
        cases cerr with
        | notApplicable =>
          constructor <;> simp [checkLoop, hc, (ih cs2 _).1, (ih cs2 _).2]
        | other e => constructor <;> simp [checkLoop, hc]
    | panics v => constructor <;> simp [checkLoop, hc]

/-- Claim C2 (amended): Check reports a scan error exactly when an
invoked checker returns a non-sentinel error or panics (benign checkers
produce no error, and any reported error is some checker's own error or
recovered panic value); when the error is a returned checker error, nil
is returned in place of the partial Problem list; when it is a recovered
panic, the Problems collected before the panic are returned alongside the
error (the deferred recover only sets the error, the named return keeps
`probs`); and a checker returning errNotApplicable is silently skipped:
it contributes no Problems, does not halt the scan, and its sentinel is
never reported to the caller. -/
theorem Check_error_reporting :
    (∀ (cs : List Checker) (d m : String),
        (∀ c ∈ cs, ((c (normalizeFqdn d) m).2).isBenign = true) →
        (Check cs d m).err = none) ∧
    (∀ (cs : List Checker) (d m : String) (e : ScanError),
        (Check cs d m).err = some e →
        ∃ c ∈ cs, ((c (normalizeFqdn d) m).2).scanError = some e) ∧
    (∀ (cs : List Checker) (d m s : String),
        (Check cs d m).err = some (.fromChecker s) →
        (Check cs d m).probs = []) ∧
    (∀ (d m v : String) (pre post : List Checker) (chk : Checker)
        (probs : List Problem) (qs : List Query),
        (chk (normalizeFqdn d) m).2 = .panics v →
        checkLoop (normalizeFqdn d) m pre [] = ⟨probs, none, pre.length, qs⟩ →
        hasFatalProblem probs = false →
        Check (pre ++ chk :: post) d m =
          ⟨probs, some (.fromPanic v), pre.length + 1,
            qs ++ (chk (normalizeFqdn d) m).1⟩) ∧
    (∀ (d m : String) (cs1 cs2 : List Checker) (chk : Checker)
        (junk : List Problem),
        (chk (normalizeFqdn d) m).2 = .ret junk (some .notApplicable) →
        (Check (cs1 ++ chk :: cs2) d m).probs = (Check (cs1 ++ cs2) d m).probs ∧
        (Check (cs1 ++ chk :: cs2) d m).err = (Check (cs1 ++ cs2) d m).err) :=
  ⟨fun cs d m h => checkLoop_err_none (normalizeFqdn d) m cs [] h,
   fun cs d m e h => checkLoop_err_source (normalizeFqdn d) m cs [] e h,
   fun cs d m s h => checkLoop_fromChecker_nil (normalizeFqdn d) m cs [] s h,
   fun d m v pre post chk probs qs hp hrun hfat =>
     checkLoop_panics_extend (normalizeFqdn d) m post chk v hp pre [] probs qs
       rfl hrun hfat,
   fun d m cs1 cs2 chk junk hna =>
     checkLoop_na_skip (normalizeFqdn d) m chk junk hna cs1 cs2 []⟩

/-- Witness for C2 at concrete inputs: a benign scan reports no error;
a panic after a Warning checker returns the collected Warning problem
alongside the panic error; a checker error empties the problem list. -/
theorem Check_error_reporting_witness :
    (Check [naChecker, warnChecker] "example.org" "http-01").err = none ∧
    Check [warnChecker, panicChecker] "example.org" "http-01" =
      ⟨[warnProblem], some (.fromPanic "checker exploded"), 2, []⟩ ∧
    (Check [warnChecker, errChecker] "example.org" "http-01").probs = [] ∧
    ((Check [warnChecker, naChecker] "example.org" "http-01").probs =
        (Check [warnChecker] "example.org" "http-01").probs ∧
      (Check [warnChecker, naChecker] "example.org" "http-01").err =
        (Check [warnChecker] "example.org" "http-01").err) :=
  ⟨Check_error_reporting.1 [naChecker, warnChecker] "example.org" "http-01"
      (by decide),
   Check_error_reporting.2.2.2.1 "example.org" "http-01" "checker exploded"
      [warnChecker] [] panicChecker [warnProblem] [] rfl (by decide) (by decide),
   Check_error_reporting.2.2.1 [warnChecker, errChecker] "example.org" "http-01"
      "dial failure" (by decide),
   Check_error_reporting.2.2.2.2 "example.org" "http-01" [warnChecker] []
      naChecker [] rfl⟩

/-- Counterexample for C2 as frozen: after a recovered panic, Check does
NOT return nil in place of the partial Problem list — the Warning problem
collected before the panic is returned together with the non-nil error. -/
theorem Check_error_reporting_counterexample :
    (Check [warnChecker, panicChecker] "example.org" "http-01").err ≠ none ∧
    (Check [warnChecker, panicChecker] "example.org" "http-01").probs ≠ [] := by
  decide

/-! ## Resource records and addresses -/

/-- A network address, as the engine observes it: whether it is an IPv4
address (Go's `ip.To4() != nil`), its presentation string, and whether it
falls inside one of the IANA-reserved CIDR blocks listed in dns_util.go
(the CIDR containment test of `isAddressReserved` is abstracted into this
flag). -/
structure IP where
  v4 : Bool
  str : String
  reservedAddr : Bool
  deriving DecidableEq, Repr

/-- isAddressReserved (dns_util.go lines 133-140), via the abstracted
reservation flag. -/
def isAddressReserved (ip : IP) : Bool := ip.reservedAddr

/-- A CAA record: the fields of miekg/dns.CAA that the engine reads. -/
structure CAA where
  Flag : Nat
  Tag : String
  Value : String
  deriving DecidableEq, Repr

/-- A DNS resource record, restricted to the record types the engine
inspects; `other` stands for a record of any other concrete type, which
the checkers skip via their type assertions. -/
inductive RR
  | a (ip : IP)
  | aaaa (ip : IP)
  | caa (rec : CAA)
  | other (s : String)
  deriving DecidableEq, Repr

/-- Presentation string of a CAA record (abbreviated `rr.String()`). -/
def CAA.string (c : CAA) : String :=
  toString c.Flag ++ " " ++ c.Tag ++ " \"" ++ c.Value ++ "\""

/-- Presentation string of a record (abbreviated `rr.String()`),
used in Detail dumps. -/
def RR.string : RR → String
  | .a ip => "A " ++ ip.str
  | .aaaa ip => "AAAA " ++ ip.str
  | .caa rec => rec.string
  | .other s => s

/-! ## Per-scan DNS cache (context.go) -/

/-- lookupResult (context.go lines 9-12): the cached resource records
plus the cached resolution error. -/
structure lookupResult where
  RRs : List RR
  Error : Option String
  deriving DecidableEq, Repr

/-- The state owned by scanContext (context.go lines 14-17): the
two-level map `rrs` modelled as an association list from (name, rrType)
to lookupResult (newest entry first — a later record of the same key
shadows the earlier one, as the Go map assignment overwrites), plus a
counter of underlying `lookup` resolutions for instrumentation. -/
structure scanContextState where
  rrs : List (Query × lookupResult)
  resolveCount : Nat
  deriving DecidableEq, Repr

/-- newScanContext (context.go lines 19-23): empty cache. -/
def newScanContext : scanContextState := ⟨[], 0⟩

/-- Reading `sc.rrs[name][rrType]`. -/
def cacheFind (rrs : List (Query × lookupResult)) (k : Query) :
    Option lookupResult :=
  (rrs.find? (fun e => e.1 == k)).map (fun e => e.2)

/-- The control points of one `scanContext.Lookup` call (context.go lines
25-49). The mutex makes the cache check (lines 26-33) and the recording
(lines 40-45) atomic; the underlying `lookup` call (line 38) runs outside
the lock, between them. -/
inductive LookupPhase
  | start
  | resolving
  | recording (r : lookupResult)
  | finished (r : lookupResult)
  deriving DecidableEq, Repr

/-- One in-flight Lookup call: its requested key and its control point. -/
structure LookupThread where
  name : String
  rrType : Nat
  phase : LookupPhase
  deriving DecidableEq, Repr

/-- One atomic step of one Lookup call against the shared state: the
locked cache check (a hit finishes at once with the cached records and
cached error; a miss proceeds to resolve), the unlocked underlying
resolution (counted by the instrumentation), and the locked recording of
the result. A finished call does nothing. -/
def lookupStep (resolver : Query → lookupResult) (st : scanContextState)
    (t : LookupThread) : scanContextState × LookupThread :=
  match t.phase with
  | .start =>
    match cacheFind st.rrs (t.name, t.rrType) with
    | some r => (st, { t with phase := .finished r })
    | none => (st, { t with phase := .resolving })
  | .resolving =>
    ({ st with resolveCount := st.resolveCount + 1 },
      { t with phase := .recording (resolver (t.name, t.rrType)) })
  | .recording r =>
    ({ st with rrs := ((t.name, t.rrType), r) :: st.rrs },
      { t with phase := .finished r })
  | .finished _ => (st, t)

/-- Run a schedule over concurrently in-flight Lookup calls: at each
step the scheduler picks which call advances by one atomic step.
Out-of-range indices advance nothing. -/
def lookupRun (resolver : Query → lookupResult) :
    List Nat → scanContextState × List LookupThread →
      scanContextState × List LookupThread
  | [], s => s
  | i :: sched, (st, ts) =>
    match ts[i]? with
    | none => lookupRun resolver sched (st, ts)
    | some t =>
      let (st', t') := lookupStep resolver st t
      lookupRun resolver sched (st', ts.set i t')

/-- A counting resolver stub that answers every query with no records
and no error. -/
def stubResolver : Query → lookupResult := fun _ => ⟨[], none⟩

/-- Two Lookup calls for the same (name, rrType) key, both arriving
immediately after scan start. -/
def twoLookups : List LookupThread :=
  [⟨"example.org", 257, .start⟩, ⟨"example.org", 257, .start⟩]

/-- Counterexample for C3 as frozen: it is NOT the case that every
concurrent execution of scanContext.Lookup issues at most one underlying
resolution per distinct (name, rrType) pair. Two calls for the same key
that both pass the locked cache check before either records a result each
issue their own resolution: the schedule check/check/resolve/resolve
drives the resolution counter to 2. -/
theorem Lookup_at_most_one_query_counterexample :
    ¬ (∀ sched : List Nat,
        (lookupRun stubResolver sched (newScanContext, twoLookups)).1.resolveCount ≤ 1) :=
  fun h => absurd (h [0, 1, 0, 1]) (by decide)

/-- Claim C3 (amended): scanContext.Lookup caches both the resource
records and the resolution error under one mutex-guarded map: a call
whose locked cache check finds a recorded result returns exactly the
cached records and cached error without touching the shared state or
issuing any resolution (so a second request for the same failing query
does not re-issue it), and recording a result makes it visible to every
later cache check; however at-most-one underlying resolution is not
guaranteed — two concurrent calls for the same key that both miss before
either records each issue their own resolution, as in the
check/check/resolve/resolve schedule, which issues two. -/
theorem Lookup_cached_result_semantics :
    (∀ (resolver : Query → lookupResult) (st : scanContextState)
        (t : LookupThread) (r : lookupResult),
        t.phase = .start →
        cacheFind st.rrs (t.name, t.rrType) = some r →
        lookupStep resolver st t = (st, { t with phase := .finished r })) ∧
    (∀ (resolver : Query → lookupResult) (st : scanContextState)
        (t : LookupThread) (r : lookupResult),
        t.phase = .recording r →
        cacheFind (lookupStep resolver st t).1.rrs (t.name, t.rrType) = some r) ∧
    (lookupRun stubResolver [0, 1, 0, 1]
        (newScanContext, twoLookups)).1.resolveCount = 2 := by
  refine ⟨?_, ?_, by decide⟩
  · intro resolver st t r hp hc
    simp [lookupStep, hp, hc]
  · intro resolver st t r hp
    simp [lookupStep, hp, cacheFind, List.find?]

/-- Witness for C3 (amended) at concrete inputs: with a cached failing
result for example.org/CAA already recorded, a fresh Lookup call finishes
with the cached records and cached error, leaving the state — including
the resolution counter — untouched. -/
theorem Lookup_cached_result_semantics_witness :
    lookupStep stubResolver
        ⟨[(("example.org", 257), ⟨[], some "SERVFAIL"⟩)], 1⟩
        ⟨"example.org", 257, .start⟩ =
      (⟨[(("example.org", 257), ⟨[], some "SERVFAIL"⟩)], 1⟩,
        ⟨"example.org", 257, .finished ⟨[], some "SERVFAIL"⟩⟩) ∧
    cacheFind (lookupStep stubResolver ⟨[], 0⟩
        ⟨"example.org", 257, .recording ⟨[], some "SERVFAIL"⟩⟩).1.rrs
        ("example.org", 257) = some ⟨[], some "SERVFAIL"⟩ :=
  ⟨Lookup_cached_result_semantics.1 stubResolver
      ⟨[(("example.org", 257), ⟨[], some "SERVFAIL"⟩)], 1⟩
      ⟨"example.org", 257, .start⟩ ⟨[], some "SERVFAIL"⟩ rfl (by decide),
   Lookup_cached_result_semantics.2.1 stubResolver ⟨[], 0⟩
      ⟨"example.org", 257, .recording ⟨[], some "SERVFAIL"⟩⟩
      ⟨[], some "SERVFAIL"⟩ rfl⟩

/-! ## Async checker block (tlssni0102.go lines 303-352, last revision) -/

/-- The outcome of one sub-checker goroutine of an asyncCheckerBlock:
either its problem list (written to resultsChan) or its error (written to
errChan). -/
inductive SubResult
  | success (probs : List Problem)
  | failure (err : String)
  deriving DecidableEq, Repr

/-- The first problem list written to resultsChan, given the goroutine
completion order (channels are FIFO). -/
def firstSuccess (arrivals : List SubResult) : Option (List Problem) :=
  arrivals.findSome? fun r =>
    match r with
    | .success ps => some ps
    | .failure _ => none

/-- The first error written to errChan, given the goroutine completion
order. The waitgroup goroutine appends nil to errChan only after every
sub-checker finished, so an error, if any, is received in preference to
that nil. -/
def firstFailure (arrivals : List SubResult) : Option String :=
  arrivals.findSome? fun r =>
    match r with
    | .success _ => none
    | .failure e => some e

/-- asyncCheckerBlock.Check (tlssni0102.go lines 306-352): all
sub-checkers are launched; each writes its problems to resultsChan or its
error to errChan, and a separate goroutine writes nil to errChan once the
waitgroup is done. The body then executes a SINGLE select over the two
channels and returns. `arrivals` is the goroutine completion order and
`takeErrChan` the select's choice when both channels are ready: receiving
from resultsChan yields the earliest-written problem list with a nil
error, receiving from errChan yields nil problems with the
earliest-written error (or nil problems and nil error, from the waitgroup
goroutine, when no sub-checker failed). `none` marks an impossible
choice (resultsChan never becomes ready when no sub-checker succeeds). -/
def asyncCheck (arrivals : List SubResult) (takeErrChan : Bool) :
    Option (List Problem × Option String) :=
  if takeErrChan then
    some ([], firstFailure arrivals)
  else
    match firstSuccess arrivals with
    | some checkerProbs => some (checkerProbs, none)
    | none => none

/-- Claim C4 is a code bug: a block of three sub-checkers returning one
Problem, one Problem, and none never yields the merged two-Problem list.
The single select returns after the first received message, so every
possible outcome of the block carries at most one of the two Problems:
receiving from resultsChan yields only the first finisher's single
Problem, and receiving from errChan (ready once the waitgroup is done)
yields no Problems at all — never the two merged Problems the contract
requires. -/
theorem asyncCheckerBlock_drops_results :
    asyncCheck [.success [warnProblem], .success [fatalProblem], .success []]
        false = some ([warnProblem], none) ∧
    asyncCheck [.success [warnProblem], .success [fatalProblem], .success []]
        true = some ([], none) ∧
    (([
        [.success [warnProblem], .success [fatalProblem], .success []],
        [.success [warnProblem], .success [], .success [fatalProblem]],
        [.success [fatalProblem], .success [warnProblem], .success []],
        [.success [fatalProblem], .success [], .success [warnProblem]],
        [.success [], .success [warnProblem], .success [fatalProblem]],
        [.success [], .success [fatalProblem], .success [warnProblem]]] :
          List (List SubResult)).all fun arrivals =>
      [true, false].all fun choice =>
        match asyncCheck arrivals choice with
        | some out => decide (out.1.length < 2)
        | none => true) = true := by
  refine ⟨by decide, by decide, by decide⟩

/-! ## HTTP prober (http_util.go) -/

/-- The slice of a parsed `url.URL` that the redirect hook reads: the
scheme, the hostname (`URL.Hostname()`, without port) and the explicit
port if one is present in `URL.Host` (pre-split by `net.SplitHostPort`
plus `strconv.Atoi`). Path and query do not participate in the policy and
are omitted from the model; `URL.String()` is rendered from these
fields. -/
structure URL where
  scheme : String
  hostname : String
  port : Option Nat
  deriving DecidableEq, Repr

/-- The rendering `req.URL.String()` of a modelled URL. -/
def URL.string (u : URL) : String :=
  u.scheme ++ "://" ++ u.hostname ++
    (match u.port with
     | some p => ":" ++ toString p
     | none => "")

/-- The redirectError text for exceeding the redirect cap
(http_util.go line 156). -/
def tooManyRedirectsMsg (numVia : Nat) (u : URL) : String :=
  "Too many (" ++ toString numVia ++ ") redirects, last redirect was to: " ++
    u.string

/-- The redirectError text for a bad explicit port (http_util.go
line 165). -/
def badPortMsg (u : URL) (p : Nat) : String :=
  "Bad port number provided when fetching " ++ u.string ++ ": " ++ toString p

/-- The redirectError text for a bad scheme (http_util.go line 172). -/
def badSchemeMsg (u : URL) (scheme : String) : String :=
  "Bad scheme provided when fetching " ++ u.string ++ ": " ++ scheme

/-- The redirectError text for a hostname ending in `.well-known`
(http_util.go lines 178-180). -/
def wellKnownRedirectMsg (u : URL) : String :=
  "It appears that a redirect was generated by your web server that is " ++
    "missing a trailing slash after your domain name: " ++ u.string ++
    ". Check your web server configuration and .htaccess for " ++
    "Redirect/RedirectMatch/RewriteRule."

/-- The scheme and `.well-known` checks of the redirect hook
(http_util.go lines 170-184), reached when neither the cap nor the port
check rejected. -/
def checkRedirectTail (u : URL) : Option String :=
  let scheme := goToLower u.scheme
  if scheme ≠ "http" ∧ scheme ≠ "https" then some (badSchemeMsg u scheme)
  else if goHasSuffix u.hostname ".well-known" then some (wellKnownRedirectMsg u)
  else none

/-- The CheckRedirect hook of the probing client (http_util.go lines
152-185): reject once ten requests are already in `via`; reject an
explicit port other than 80/443; reject a scheme other than http/https;
reject a redirect target hostname ending in `.well-known`. `numVia` is
`len(via)`, the number of requests already made. Returns the
redirectError text of the violation, if any. -/
def checkRedirect (numVia : Nat) (u : URL) : Option String :=
  if 10 ≤ numVia then some (tooManyRedirectsMsg numVia u)
  else
    match u.port with
    | some p =>
      if p ≠ 80 ∧ p ≠ 443 then some (badPortMsg u p)
      else checkRedirectTail u
    | none => checkRedirectTail u

/-- Whether the explicit port, if any, passes the hook's port check. -/
def portOk (u : URL) : Bool :=
  match u.port with
  | some p => p == 80 || p == 443
  | none => true

/-- httpServerMisconfiguration (http_util.go lines 279-286). -/
def httpServerMisconfiguration (domain detail : String) : Problem :=
  { Name := "WebserverMisconfiguration"
    Explanation := domain ++ "\x27s webserver may be misconfigured."
    Detail := detail
    Severity := SeverityError }

/-- aaaaNotWorking (http_util.go lines 288-298). -/
def aaaaNotWorking (domain ipv6Address errText : String)
    (dialStack : List String) : Problem :=
  { Name := "AAAANotWorking"
    Explanation := domain ++ " has an AAAA (IPv6) record (" ++ ipv6Address ++
      ") but a test request to this address over port 80 did not succeed. " ++
      "Your web server must have at least one working IPv4 or IPv6 address. " ++
      "You should either ensure that validation requests to this domain " ++
      "succeed over IPv6, or remove its AAAA record."
    Detail := errText ++ "\n\nTrace:\n" ++ String.intercalate "\n" dialStack
    Severity := SeverityError }

/-- aNotWorking (http_util.go lines 300-309). -/
def aNotWorking (domain addr errText : String)
    (dialStack : List String) : Problem :=
  { Name := "ANotWorking"
    Explanation := domain ++ " has an A (IPv4) record (" ++ addr ++
      ") but a request to this address over port 80 did not succeed. " ++
      "Your web server must have at least one working IPv4 or IPv6 address."
    Detail := errText ++ "\n\nTrace:\n" ++ String.intercalate "\n" dialStack
    Severity := SeverityError }

/-- badRedirect (http_util.go lines 311-320). -/
def badRedirect (domain errText : String) (dialStack : List String) : Problem :=
  { Name := "BadRedirect"
    Explanation := "Sending an ACME HTTP validation request to " ++ domain ++
      " results in an unacceptable redirect. This is most likely a " ++
      "misconfiguration of your web server or your web application."
    Detail := errText ++ "\n\nTrace:\n" ++ String.intercalate "\n" dialStack
    Severity := SeverityError }

/-- unexpectedHttpResponse (http_util.go lines 322-329). -/
def unexpectedHttpResponse (domain httpStatus httpBody : String)
    (dialStack : List String) : Problem :=
  { Name := "UnexpectedHttpResponse"
    Explanation := "Sending an ACME HTTP validation request to " ++ domain ++
      " results in unexpected HTTP response " ++ httpStatus ++
      ". This indicates that the webserver is misconfigured or misbehaving."
    Detail := httpStatus ++ "\n\n" ++ httpBody ++ "\n\nTrace:\n" ++
      String.intercalate "\n" dialStack
    Severity := SeverityWarning }

/-- The error value checkHTTP hands to translateHTTPError: either the
redirectError recorded by the hook, or any other error rendered as its
message string together with whether it is a url.Error timeout. -/
inductive HTTPError
  | redirect (msg : String)
  | generic (msg : String) (isTimeout : Bool)
  deriving DecidableEq, Repr

/-- translateHTTPError (http_util.go lines 256-277): a redirectError
becomes a BadRedirect problem; an error message ending in Go's
protocol-mismatch text becomes WebserverMisconfiguration; a url.Error
timeout gets a human-readable rewrite; anything else is classified by
address family into AAAANotWorking / ANotWorking. -/
def translateHTTPError (domain : String) (address : IP) (e : HTTPError)
    (dialStack : List String) : Problem :=
  match e with
  | .redirect msg => badRedirect domain msg dialStack
  | .generic msg isTimeout =>
    if goHasSuffix msg "http: server gave HTTP response to HTTPS client" then
      httpServerMisconfiguration domain
        ("Web server is serving the wrong protocol on the wrong port: " ++
          msg ++ ". This may be due to a previous HTTP redirect rather than " ++
          "a webserver misconfiguration.\n\nTrace:\n" ++
          String.intercalate "\n" dialStack)
    else
      let msg2 := if isTimeout then
          "A timeout was experienced while communicating with " ++ domain ++
            "/" ++ address.str ++ ": " ++ msg
        else msg
      if address.v4 = false then aaaaNotWorking domain address.str msg2 dialStack
      else aNotWorking domain address.str msg2 dialStack

/-- The expected-response mismatch text (http_util.go lines 236-237). -/
def mismatchBodyMsg (expected body : String) : String :=
  "This test expected the server to respond with \"" ++ expected ++
    "\" but instead we got a response beginning with \"" ++ body ++ "\""

/-- The expected-response read-error text (http_util.go lines 231-232). -/
def mismatchReadErrMsg (expected e : String) : String :=
  "This test expected the server to respond with \"" ++ expected ++
    "\" but instead we experienced an error reading the response: " ++ e

/-- The response evaluation of checkHTTP (http_util.go lines 216-253),
once the final response has arrived: `httpExpectResponse` is the scan's
expected-body option (empty means none configured), `statusCode` the
final status, `statusLine` Go's `resp.Status`, `readErr` any error from
reading the body, and `body` the read content. Returns the zero Problem
when nothing is wrong (line 253). -/
def checkHTTPResponse (httpExpectResponse domain : String) (address : IP)
    (statusCode : Nat) (statusLine : String) (readErr : Option String)
    (body : String) (dialStack : List String) : Problem :=
  if httpExpectResponse ≠ "" then
    match readErr with
    | some e =>
      translateHTTPError domain address
        (.generic (mismatchReadErrMsg httpExpectResponse e) false) dialStack
    | none =>
      if body ≠ httpExpectResponse then
        translateHTTPError domain address
          (.generic (mismatchBodyMsg httpExpectResponse body) false) dialStack
      else Problem.zero
  else
    match readErr with
    | none =>
      if (statusCode > 299 ∨ statusCode < 200) ∧ statusCode ≠ 404 then
        unexpectedHttpResponse domain statusLine body dialStack
      else Problem.zero
    | some e =>
      translateHTTPError domain address
        (.generic ("we experienced an error reading the response: " ++ e) false)
        dialStack

/-- A string that ends in a double quote never ends in Go's
protocol-mismatch error text. -/
theorem goHasSuffix_quote_https_client (s : String) :
    goHasSuffix (s ++ "\"") "http: server gave HTTP response to HTTPS client" =
      false := by
  by_contra h
  rw [Bool.not_eq_false, goHasSuffix, List.isSuffixOf_iff_suffix] at h
  rw [String.data_append] at h
  obtain ⟨p, hp⟩ := h
  have h1 : (p ++ ("http: server gave HTTP response to HTTPS client").data).getLast? =
      some 't' := by
    rw [List.getLast?_append_of_ne_nil _ (by decide)]
    decide
  rw [hp, List.getLast?_append_of_ne_nil _ (by decide)] at h1
  simp at h1

/-- Claim C5: the redirect hook rejects an attempt once ten requests
have already been made (the hard cap: the 11th request is refused as too
many redirects); rejects any explicit redirect-target port other than 80
and 443; rejects any scheme other than http and https (after
lowercasing); rejects any target hostname ending in `.well-known`; and a
redirectError surfaced through translateHTTPError becomes exactly one
BadRedirect Problem whose Detail carries the violation text followed by
the full dial trace. -/
theorem checkRedirect_policy :
    (∀ (numVia : Nat) (u : URL), 10 ≤ numVia →
        checkRedirect numVia u = some (tooManyRedirectsMsg numVia u)) ∧
    (∀ (numVia : Nat) (u : URL) (p : Nat), numVia < 10 → u.port = some p →
        p ≠ 80 → p ≠ 443 → checkRedirect numVia u = some (badPortMsg u p)) ∧
    (∀ (numVia : Nat) (u : URL), numVia < 10 → portOk u = true →
        goToLower u.scheme ≠ "http" → goToLower u.scheme ≠ "https" →
        checkRedirect numVia u = some (badSchemeMsg u (goToLower u.scheme))) ∧
    (∀ (numVia : Nat) (u : URL), numVia < 10 → portOk u = true →
        (goToLower u.scheme = "http" ∨ goToLower u.scheme = "https") →
        goHasSuffix u.hostname ".well-known" = true →
        checkRedirect numVia u = some (wellKnownRedirectMsg u)) ∧
    (∀ (domain : String) (address : IP) (msg : String)
        (dialStack : List String),
        translateHTTPError domain address (.redirect msg) dialStack =
          badRedirect domain msg dialStack ∧
        (badRedirect domain msg dialStack).Name = "BadRedirect" ∧
        (badRedirect domain msg dialStack).Severity = SeverityError ∧
        (badRedirect domain msg dialStack).Detail =
          msg ++ "\n\nTrace:\n" ++ String.intercalate "\n" dialStack) := by
  refine ⟨?_, ?_, ?_, ?_, ?_⟩
  · intro numVia u h
    simp [checkRedirect, h]
  · intro numVia u p hlt hport h80 h443
    simp [checkRedirect, Nat.not_le.2 hlt, hport, h80, h443]
  · intro numVia u hlt hport hhttp hhttps
    rcases hu : u.port with - | p
    · simp [checkRedirect, Nat.not_le.2 hlt, hu, checkRedirectTail, hhttp, hhttps]
    · have hp : p = 80 ∨ p = 443 := by
        rw [portOk, hu] at hport
        simpa using hport
      have hcond : ¬ (p ≠ 80 ∧ p ≠ 443) := by
        rcases hp with h | h <;> simp [h]
      simp [checkRedirect, Nat.not_le.2 hlt, hu, hcond, checkRedirectTail,
        hhttp, hhttps]
  · intro numVia u hlt hport hscheme hwk
    have hs : ¬ (goToLower u.scheme ≠ "http" ∧ goToLower u.scheme ≠ "https") := by
      rcases hscheme with h | h <;> simp [h]
    rcases hu : u.port with - | p
    · simp [checkRedirect, Nat.not_le.2 hlt, hu, checkRedirectTail, hs, hwk]
    · have hp : p = 80 ∨ p = 443 := by
        rw [portOk, hu] at hport
        simpa using hport
      have hcond : ¬ (p ≠ 80 ∧ p ≠ 443) := by
        rcases hp with h | h <;> simp [h]
      simp [checkRedirect, Nat.not_le.2 hlt, hu, hcond, checkRedirectTail,
        hs, hwk]
  · intro domain address msg dialStack
    exact ⟨rfl, rfl, rfl, rfl⟩

/-- Witness for C5 at concrete inputs: the 11th attempt (ten requests
already made) is rejected; port 8080 is rejected; scheme ftp is rejected;
a `.well-known` hostname is rejected; and the surfaced problem is a
BadRedirect carrying the trace. -/
theorem checkRedirect_policy_witness :
    checkRedirect 10 ⟨"http", "example.org", none⟩ =
      some (tooManyRedirectsMsg 10 ⟨"http", "example.org", none⟩) ∧
    checkRedirect 3 ⟨"http", "example.org", some 8080⟩ =
      some (badPortMsg ⟨"http", "example.org", some 8080⟩ 8080) ∧
    checkRedirect 3 ⟨"ftp", "example.org", none⟩ =
      some (badSchemeMsg ⟨"ftp", "example.org", none⟩ "ftp") ∧
    checkRedirect 3 ⟨"http", "example.org.well-known", some 80⟩ =
      some (wellKnownRedirectMsg ⟨"http", "example.org.well-known", some 80⟩) ∧
    translateHTTPError "example.org" ⟨true, "192.0.2.1", false⟩
        (.redirect "Too many (10) redirects") ["@0ms: Dialing 192.0.2.1"] =
      badRedirect "example.org" "Too many (10) redirects"
        ["@0ms: Dialing 192.0.2.1"] :=
  ⟨checkRedirect_policy.1 10 ⟨"http", "example.org", none⟩ (by decide),
   checkRedirect_policy.2.1 3 ⟨"http", "example.org", some 8080⟩ 8080
     (by decide) rfl (by decide) (by decide),
   by
     have := checkRedirect_policy.2.2.1 3 ⟨"ftp", "example.org", none⟩
       (by decide) (by decide) (by decide) (by decide)
     simpa using this,
   by
     have := checkRedirect_policy.2.2.2.1 3
       ⟨"http", "example.org.well-known", some 80⟩
       (by decide) (by decide) (by decide) (by decide)
     simpa using this,
   (checkRedirect_policy.2.2.2.2 "example.org" ⟨true, "192.0.2.1", false⟩
     "Too many (10) redirects" ["@0ms: Dialing 192.0.2.1"]).1⟩

/-- Claim C6: with no expected response body configured and the body
read succeeding, checkHTTP's response evaluation returns the zero Problem
(no problem) for a final status of exactly 404 or in 200-299, and exactly
one Warning-severity UnexpectedHttpResponse Problem for any other final
status; with an expected response body configured, a body mismatch yields
an Error-severity Problem whose Detail quotes both the expected and the
actual content, and a read error yields an Error-severity Problem whose
Detail quotes the expected content and the error. -/
theorem checkHTTP_response_evaluation :
    (∀ (domain : String) (address : IP) (statusCode : Nat)
        (statusLine body : String) (dialStack : List String),
        statusCode = 404 ∨ (200 ≤ statusCode ∧ statusCode ≤ 299) →
        checkHTTPResponse "" domain address statusCode statusLine none body
          dialStack = Problem.zero) ∧
    (∀ (domain : String) (address : IP) (statusCode : Nat)
        (statusLine body : String) (dialStack : List String),
        statusCode ≠ 404 → statusCode < 200 ∨ 299 < statusCode →
        checkHTTPResponse "" domain address statusCode statusLine none body
            dialStack = unexpectedHttpResponse domain statusLine body dialStack ∧
          (unexpectedHttpResponse domain statusLine body dialStack).Name =
            "UnexpectedHttpResponse" ∧
          (unexpectedHttpResponse domain statusLine body dialStack).Severity =
            SeverityWarning) ∧
    (∀ (expected domain : String) (address : IP) (statusCode : Nat)
        (statusLine body : String) (dialStack : List String),
        expected ≠ "" → body ≠ expected →
        (checkHTTPResponse expected domain address statusCode statusLine none
            body dialStack).Severity = SeverityError ∧
        (checkHTTPResponse expected domain address statusCode statusLine none
            body dialStack).Detail =
          mismatchBodyMsg expected body ++ "\n\nTrace:\n" ++
            String.intercalate "\n" dialStack) ∧
    (∀ (expected e domain : String) (address : IP) (statusCode : Nat)
        (statusLine body : String) (dialStack : List String),
        expected ≠ "" →
        (checkHTTPResponse expected domain address statusCode statusLine
            (some e) body dialStack).Severity = SeverityError ∧
        ∃ pre post,
          (checkHTTPResponse expected domain address statusCode statusLine
              (some e) body dialStack).Detail =
            pre ++ mismatchReadErrMsg expected e ++ post) := by
  refine ⟨?_, ?_, ?_, ?_⟩
  · intro domain address statusCode statusLine body dialStack h
    have hcond : ¬ ((statusCode > 299 ∨ statusCode < 200) ∧ statusCode ≠ 404) := by
      rcases h with h | h
      · simp [h]
      · intro hc
        rcases hc.1 with hgt | hlt <;> omega
    simp [checkHTTPResponse, hcond]
  · intro domain address statusCode statusLine body dialStack h404 hrange
    have hcond : (statusCode > 299 ∨ statusCode < 200) ∧ statusCode ≠ 404 := by
      constructor
      · rcases hrange with h | h
        · right; omega
        · left; omega
      · exact h404
    exact ⟨by simp [checkHTTPResponse, hcond], rfl, rfl⟩
  · intro expected domain address statusCode statusLine body dialStack hexp hbody
    have hsuffix : goHasSuffix (mismatchBodyMsg expected body)
        "http: server gave HTTP response to HTTPS client" = false := by
      rw [mismatchBodyMsg]
      exact goHasSuffix_quote_https_client _
    rcases address with ⟨v4, str, res⟩
    cases v4 <;>
      simp [checkHTTPResponse, hexp, hbody, translateHTTPError, hsuffix,
        aaaaNotWorking, aNotWorking, SeverityError, String.append_assoc]
  · intro expected e domain address statusCode statusLine body dialStack hexp
    by_cases hs : goHasSuffix (mismatchReadErrMsg expected e)
        "http: server gave HTTP response to HTTPS client" = true
    · refine ⟨?_, "Web server is serving the wrong protocol on the wrong port: ",
        ". This may be due to a previous HTTP redirect rather than " ++
          "a webserver misconfiguration.\n\nTrace:\n" ++
          String.intercalate "\n" dialStack, ?_⟩ <;>
        simp [checkHTTPResponse, hexp, translateHTTPError, hs,
          httpServerMisconfiguration, SeverityError, String.append_assoc]
    · have hs' : goHasSuffix (mismatchReadErrMsg expected e)
          "http: server gave HTTP response to HTTPS client" = false := by
        simpa using hs
      rcases address with ⟨v4, str, res⟩
      cases v4 <;>
        exact ⟨by simp [checkHTTPResponse, hexp, translateHTTPError, hs',
            aaaaNotWorking, aNotWorking, SeverityError],
          "", "\n\nTrace:\n" ++ String.intercalate "\n" dialStack,
          by simp [checkHTTPResponse, hexp, translateHTTPError, hs',
            aaaaNotWorking, aNotWorking, String.append_assoc]⟩

/-- Counterexample for C6 as frozen: with no expected response body, a
final status of exactly 404 does NOT always yield zero Problems — when
the response body read fails, the evaluation returns an Error-severity
ANotWorking Problem despite the 404 status (and likewise no
UnexpectedHttpResponse is produced for a non-2xx status in that case). -/
theorem checkHTTP_response_evaluation_counterexample :
    (checkHTTPResponse "" "example.org" ⟨true, "192.0.2.1", false⟩ 404
        "404 Not Found" (some "connection reset") "" []).IsZero = false ∧
    (checkHTTPResponse "" "example.org" ⟨true, "192.0.2.1", false⟩ 404
        "404 Not Found" (some "connection reset") "" []).Name = "ANotWorking" := by
  constructor
  · decide
  · decide

/-- Witness for C6 at concrete inputs: a 404 and a 200 with no expected
body give no problem; a 500 gives the Warning UnexpectedHttpResponse;
an expected body "ok" against an actual body "bad" gives an
Error-severity problem quoting both; a read error against an expected
body gives an Error-severity problem quoting the expectation. -/
theorem checkHTTP_response_evaluation_witness :
    checkHTTPResponse "" "example.org" ⟨true, "192.0.2.1", false⟩ 404
        "404 Not Found" none "" [] = Problem.zero ∧
    checkHTTPResponse "" "example.org" ⟨true, "192.0.2.1", false⟩ 200
        "200 OK" none "hello" [] = Problem.zero ∧
    checkHTTPResponse "" "example.org" ⟨true, "192.0.2.1", false⟩ 500
        "500 Internal Server Error" none "oops" [] =
      unexpectedHttpResponse "example.org" "500 Internal Server Error" "oops"
        [] ∧
    (checkHTTPResponse "ok" "example.org" ⟨true, "192.0.2.1", false⟩ 200
        "200 OK" none "bad" []).Severity = SeverityError ∧
    (checkHTTPResponse "ok" "example.org" ⟨true, "192.0.2.1", false⟩ 200
        "200 OK" none "bad" []).Detail =
      mismatchBodyMsg "ok" "bad" ++ "\n\nTrace:\n" ++ String.intercalate "\n" [] ∧
    (checkHTTPResponse "ok" "example.org" ⟨true, "192.0.2.1", false⟩ 200
        "200 OK" (some "connection reset") "" []).Severity = SeverityError :=
  ⟨checkHTTP_response_evaluation.1 "example.org" ⟨true, "192.0.2.1", false⟩ 404
      "404 Not Found" "" [] (by decide),
   checkHTTP_response_evaluation.1 "example.org" ⟨true, "192.0.2.1", false⟩ 200
      "200 OK" "hello" [] (by decide),
   (checkHTTP_response_evaluation.2.1 "example.org" ⟨true, "192.0.2.1", false⟩
      500 "500 Internal Server Error" "oops" [] (by decide) (by decide)).1,
   (checkHTTP_response_evaluation.2.2.1 "ok" "example.org"
      ⟨true, "192.0.2.1", false⟩ 200 "200 OK" "bad" [] (by decide) (by decide)).1,
   (checkHTTP_response_evaluation.2.2.1 "ok" "example.org"
      ⟨true, "192.0.2.1", false⟩ 200 "200 OK" "bad" [] (by decide) (by decide)).2,
   (checkHTTP_response_evaluation.2.2.2 "ok" "connection reset" "example.org"
      ⟨true, "192.0.2.1", false⟩ 200 "200 OK" "" [] (by decide)).1⟩

/-! ## CAA policy chain walk (generic.go lines 106-187) -/

/-- Splitting a char list on dots (helper for strings.Split(s, ".")). -/
def splitLabelsAux : List Char → List Char → List String
  | [], cur => [⟨cur.reverse⟩]
  | c :: rest, cur =>
    if c = '.' then ⟨cur.reverse⟩ :: splitLabelsAux rest []
    else splitLabelsAux rest (c :: cur)

/-- A domain name as its DNS labels: strings.Split(s, "."). Stripping the
leftmost label of the joined name (Go's `strings.SplitN(domain, ".", 2)[1]`)
is the tail of this list. -/
def splitLabels (s : String) : List String := splitLabelsAux s.data []

/-- Joining DNS labels back into a domain name. -/
def joinLabels (labels : List String) : String := String.intercalate "." labels

/-- Go's strings.HasPrefix(domain, "*.") on the data level. -/
def goHasWildcardPrefix (s : String) : Bool :=
  match s.data with
  | '*' :: '.' :: _ => true
  | _ => false

/-- extractIssuerDomain (generic.go lines 189-193): the part of the CAA
value before the first `;`, trimmed of spaces and tabs. -/
def extractIssuerDomain (value : String) : String :=
  goTrimSpaceTab ⟨value.data.takeWhile (fun c => c ≠ ';')⟩

/-- collateRecords (generic.go lines 195-201). -/
def collateRecords (records : List CAA) : String :=
  String.intercalate "\n" (records.map CAA.string)

/-- caaCriticalUnknown (generic.go lines 203-211). -/
def caaCriticalUnknown (domain : String) (wildcard : Bool)
    (records : List CAA) : Problem :=
  { Name := "CAACriticalUnknown"
    Explanation := "CAA record(s) exist on " ++ domain ++ " (wildcard=" ++
      toString wildcard ++ ") that are marked as critical but are unknown to " ++
      "Let\x27s Encrypt. These record(s) as shown in the detail must be " ++
      "removed, or marked as non-critical, before a certificate can be " ++
      "issued by the Let\x27s Encrypt CA."
    Detail := collateRecords records
    Severity := SeverityFatal }

/-- caaIssuanceNotAllowed (generic.go lines 213-222). -/
def caaIssuanceNotAllowed (domain : String) (wildcard : Bool)
    (records : List CAA) : Problem :=
  { Name := "CAAIssuanceNotAllowed"
    Explanation := "No CAA record on " ++ domain ++ " (wildcard=" ++
      toString wildcard ++ ") contains the issuance domain " ++
      "\"letsencrypt.org\". You must either add an additional record to " ++
      "include \"letsencrypt.org\" or remove every existing CAA record. " ++
      "A list of the CAA records are provided in the details."
    Detail := collateRecords records
    Severity := SeverityFatal }

/-- The type assertion `rr.(*dns.CAA)`. -/
def RR.toCAA : RR → Option CAA
  | .caa rec => some rec
  | _ => none

/-- The `issue` bucket of the record classification loop (generic.go
lines 127-143). -/
def caaIssues (rrs : List RR) : List CAA :=
  (rrs.filterMap RR.toCAA).filter (fun c => c.Tag == "issue")

/-- The `issuewild` bucket of the classification loop. -/
def caaIssueWilds (rrs : List RR) : List CAA :=
  (rrs.filterMap RR.toCAA).filter (fun c => c.Tag == "issuewild")

/-- The `criticalUnknown` bucket of the classification loop: unrecognized
tag with the critical flag (the code tests `Flag == 1`). -/
def caaCriticalUnknowns (rrs : List RR) : List CAA :=
  (rrs.filterMap RR.toCAA).filter
    (fun c => c.Tag != "issue" && c.Tag != "issuewild" && c.Flag == 1)

/-- The record set the policy decision is made over (generic.go lines
158-161): issue records, replaced by issuewild records for a wildcard
domain when any exist. -/
def caaSelected (wildcard : Bool) (rrs : List RR) : List CAA :=
  if wildcard && decide (0 < (caaIssueWilds rrs).length) then caaIssueWilds rrs
  else caaIssues rrs

/-- The Debug-severity CAA record dump appended whenever records exist
(generic.go lines 145-147). -/
def caaDebug (rrs : List RR) : Problem :=
  debugProblem "CAA"
    "CAA records control authorization for certificate authorities to issue certificates for a domain"
    (collateRecords (caaIssues rrs ++ caaIssueWilds rrs))

/-- caaChecker.Check after de-wildcarding, on the label list
(generic.go lines 106-187). `db` is the scan context's CAA resolution
(records or error) per label list; `psl` is publicsuffix.PublicSuffix.
Returns the problems and the CAA queries issued (type 257). When the
lookup returns records, classify and decide; when it returns none,
recurse to the parent by stripping exactly one leftmost label, while the
current name differs from its public suffix and the public suffix is
nonempty. The recursive call, like the Go one, passes the stripped name,
so the wildcard flag is reset. -/
def caaCheckStep (db : Query → Except String (List RR))
    (psl : String → String) (labels : List String) (wildcard : Bool)
    (parent : List Problem × List Query) : List Problem × List Query :=
  let name := joinLabels labels
  match db (name, 257) with
  | .error e => ([dnsLookupFailed name "CAA" e], [(name, 257)])
  | .ok rrs =>
    if 0 < rrs.length then
      let probs := [caaDebug rrs]
      if 0 < (caaCriticalUnknowns rrs).length then
        (probs ++ [caaCriticalUnknown name wildcard (caaCriticalUnknowns rrs)],
          [(name, 257)])
      else if (caaIssues rrs).length = 0 ∧ wildcard = false then
        (probs, [(name, 257)])
      else if (caaSelected wildcard rrs).any
          (fun r => extractIssuerDomain r.Value == "letsencrypt.org") then
        (probs, [(name, 257)])
      else
        (probs ++ [caaIssuanceNotAllowed name wildcard (caaSelected wildcard rrs)],
          [(name, 257)])
    else
      match labels with
      | [] => ([], [(name, 257)])
      | _ :: _ =>
        if psl name ≠ name ∧ psl name ≠ "" then
          (parent.1, (name, 257) :: parent.2)
        else ([], [(name, 257)])

/-- The recursive walk: the parent result that `caaCheckStep` falls back
to is the walk of the label list with its leftmost label stripped (and
the wildcard flag reset, as the Go recursion passes the stripped name). -/
def caaCheckLabels (db : Query → Except String (List RR))
    (psl : String → String) : List String → Bool → List Problem × List Query
  | [], wildcard => caaCheckStep db psl [] wildcard ([], [])
  | l :: rest, wildcard =>
    caaCheckStep db psl (l :: rest) wildcard (caaCheckLabels db psl rest false)

/-- caaChecker.Check (generic.go lines 106-113 wrapper): strip a `*.`
prefix into the wildcard flag, then walk the labels. The method is
unused; the checker never returns an error. -/
def caaChecker.Check (db : Query → Except String (List RR))
    (psl : String → String) (domain _method : String) :
    List Query × CheckerResult :=
  let wildcard := goHasWildcardPrefix domain
  let dom := if wildcard then (⟨domain.data.drop 2⟩ : String) else domain
  let res := caaCheckLabels db psl (splitLabels dom) wildcard
  (res.2, .ret res.1 none)

/-- The CAA database for the inherited-permission scenario: no records
at sub.example.org, a permitting `0 issue "letsencrypt.org"` record at
example.org. -/
def caaDbInherited : Query → Except String (List RR) := fun q =>
  if q = ("example.org", 257) then .ok [RR.caa ⟨0, "issue", "letsencrypt.org"⟩]
  else .ok []

/-- The CAA database for the denying scenario: no records at
sub.example.org, a `0 issue "othertrustca.com"` record at example.org. -/
def caaDbDenied : Query → Except String (List RR) := fun q =>
  if q = ("example.org", 257) then .ok [RR.caa ⟨0, "issue", "othertrustca.com"⟩]
  else .ok []

/-- A public-suffix oracle for the .org tree. -/
def pslOrg : String → String := fun _ => "org"

/-- Counterexample for C7 as frozen: a domain with no CAA records of its
own but a permitting issue record at a parent does NOT yield an empty
Problem list — the checker returns the Debug-severity CAA record dump
collected at the parent, so "yields no Problem" is false as stated. -/
theorem caaChecker_inherited_counterexample :
    (caaChecker.Check caaDbInherited pslOrg "sub.example.org" "http-01").2 =
      .ret [caaDebug [RR.caa ⟨0, "issue", "letsencrypt.org"⟩]] none ∧
    [caaDebug [RR.caa ⟨0, "issue", "letsencrypt.org"⟩]] ≠ ([] : List Problem) := by
  constructor
  · decide
  · decide

/-- Claim C7 (amended): the CAA checker reports a Fatal CAACriticalUnknown
when any CAA record at the queried label carries an unrecognized tag with
the critical flag set; otherwise it selects issuewild records (falling
back to issue) for a wildcard domain and issue records only for a
non-wildcard domain, and reports exactly one Fatal CAAIssuanceNotAllowed
with every selected record attached as Detail when the selected non-empty
record set contains no record whose issuer domain equals letsencrypt.org
(a non-wildcard domain whose records yield an empty selected set returns
without any Fatal finding, generic.go line 154); when the lookup at a
label returns no record at all it recurses to the immediate parent by
stripping exactly one leftmost DNS label, stopping once the name equals
its public suffix; and a domain with no records of its own but a
permitting issue record at a parent yields no Problem beyond the
informational Debug-severity CAA record dump. -/
theorem caaChecker_policy :
    (∀ (db : Query → Except String (List RR)) (psl : String → String)
        (labels : List String) (wildcard : Bool) (rrs : List RR),
        db (joinLabels labels, 257) = .ok rrs → 0 < rrs.length →
        0 < (caaCriticalUnknowns rrs).length →
        (caaCheckLabels db psl labels wildcard).1 =
          [caaDebug rrs,
            caaCriticalUnknown (joinLabels labels) wildcard
              (caaCriticalUnknowns rrs)] ∧
        (caaCriticalUnknown (joinLabels labels) wildcard
            (caaCriticalUnknowns rrs)).Severity = SeverityFatal) ∧
    ((∀ rrs, caaSelected false rrs = caaIssues rrs) ∧
      (∀ rrs, 0 < (caaIssueWilds rrs).length →
        caaSelected true rrs = caaIssueWilds rrs) ∧
      (∀ rrs, (caaIssueWilds rrs).length = 0 →
        caaSelected true rrs = caaIssues rrs)) ∧
    (∀ (db : Query → Except String (List RR)) (psl : String → String)
        (labels : List String) (wildcard : Bool) (rrs : List RR),
        db (joinLabels labels, 257) = .ok rrs → 0 < rrs.length →
        (caaCriticalUnknowns rrs).length = 0 →
        0 < (caaSelected wildcard rrs).length →
        (caaSelected wildcard rrs).any
            (fun r => extractIssuerDomain r.Value == "letsencrypt.org") = false →
        (caaCheckLabels db psl labels wildcard).1 =
          [caaDebug rrs,
            caaIssuanceNotAllowed (joinLabels labels) wildcard
              (caaSelected wildcard rrs)] ∧
        (caaIssuanceNotAllowed (joinLabels labels) wildcard
            (caaSelected wildcard rrs)).Severity = SeverityFatal ∧
        (caaIssuanceNotAllowed (joinLabels labels) wildcard
            (caaSelected wildcard rrs)).Detail =
          collateRecords (caaSelected wildcard rrs)) ∧
    (∀ (db : Query → Except String (List RR)) (psl : String → String)
        (labels : List String) (rrs : List RR),
        db (joinLabels labels, 257) = .ok rrs → 0 < rrs.length →
        (caaCriticalUnknowns rrs).length = 0 →
        (caaIssues rrs).length = 0 →
        (caaCheckLabels db psl labels false).1 = [caaDebug rrs]) ∧
    (∀ (db : Query → Except String (List RR)) (psl : String → String)
        (labels : List String) (wildcard : Bool) (rrs : List RR),
        db (joinLabels labels, 257) = .ok rrs → 0 < rrs.length →
        (caaCriticalUnknowns rrs).length = 0 →
        (caaSelected wildcard rrs).any
            (fun r => extractIssuerDomain r.Value == "letsencrypt.org") = true →
        (caaCheckLabels db psl labels wildcard).1 = [caaDebug rrs]) ∧
    (∀ (db : Query → Except String (List RR)) (psl : String → String)
        (l : String) (rest : List String) (wildcard : Bool),
        db (joinLabels (l :: rest), 257) = .ok [] →
        psl (joinLabels (l :: rest)) ≠ joinLabels (l :: rest) →
        psl (joinLabels (l :: rest)) ≠ "" →
        (caaCheckLabels db psl (l :: rest) wildcard).1 =
          (caaCheckLabels db psl rest false).1) ∧
    (∀ (db : Query → Except String (List RR)) (psl : String → String)
        (labels : List String) (wildcard : Bool),
        db (joinLabels labels, 257) = .ok [] →
        (psl (joinLabels labels) = joinLabels labels ∨
          psl (joinLabels labels) = "") →
        (caaCheckLabels db psl labels wildcard).1 = []) ∧
    (∀ (db : Query → Except String (List RR)) (psl : String → String)
        (s : String) (rest : List String) (wildcard : Bool) (rrs : List RR),
        db (joinLabels (s :: rest), 257) = .ok [] →
        psl (joinLabels (s :: rest)) ≠ joinLabels (s :: rest) →
        psl (joinLabels (s :: rest)) ≠ "" →
        db (joinLabels rest, 257) = .ok rrs → 0 < rrs.length →
        (caaCriticalUnknowns rrs).length = 0 →
        ((caaIssues rrs).length = 0 ∨
          (caaSelected false rrs).any
            (fun r => extractIssuerDomain r.Value == "letsencrypt.org") = true) →
        ∀ p ∈ (caaCheckLabels db psl (s :: rest) wildcard).1,
          p.Severity = "Debug") := by
  refine ⟨?_, ⟨?_, ?_, ?_⟩, ?_, ?_, ?_, ?_, ?_, ?_⟩
  · intro db psl labels wildcard rrs hdb hlen hcu
    refine ⟨?_, rfl⟩
    cases labels <;> simp [caaCheckLabels, caaCheckStep, hdb, hlen, hcu]
  · intro rrs
    simp [caaSelected]
  · intro rrs h
    simp [caaSelected, h]
  · intro rrs h
    simp [caaSelected, h]
  · intro db psl labels wildcard rrs hdb hlen hcu hselne hany
    refine ⟨?_, rfl, rfl⟩
    have hcu' : ¬ 0 < (caaCriticalUnknowns rrs).length := by omega
    have hsel2 : ¬ (caaIssues rrs = [] ∧ wildcard = false) := by
      rintro ⟨h1, h2⟩
      rw [h2, show caaSelected false rrs = caaIssues rrs from by simp [caaSelected],
        h1] at hselne
      simp at hselne
    cases labels <;>
      simp [caaCheckLabels, caaCheckStep, hdb, hlen, hcu', hsel2, hany]
  · intro db psl labels rrs hdb hlen hcu hnoissue
    have hcu' : ¬ 0 < (caaCriticalUnknowns rrs).length := by omega
    have hz2 : caaIssues rrs = [] := by
      cases h : caaIssues rrs
      · rfl
      · rw [h] at hnoissue; simp at hnoissue
    cases labels <;>
      simp [caaCheckLabels, caaCheckStep, hdb, hlen, hcu', hz2]
  · intro db psl labels wildcard rrs hdb hlen hcu hany
    have hcu' : ¬ 0 < (caaCriticalUnknowns rrs).length := by omega
    by_cases hc2 : caaIssues rrs = [] ∧ wildcard = false
    · obtain ⟨hz, hw⟩ := hc2
      subst hw
      cases labels <;>
        simp [caaCheckLabels, caaCheckStep, hdb, hlen, hcu', hz]
    · cases labels <;>
        simp [caaCheckLabels, caaCheckStep, hdb, hlen, hcu', hc2, hany]
  · intro db psl l rest wildcard hdb hps1 hps2
    simp [caaCheckLabels, caaCheckStep, hdb, hps1, hps2]
  · intro db psl labels wildcard hdb hps
    cases labels with
    | nil => simp [caaCheckLabels, caaCheckStep, hdb]
    | cons l rest =>
      have hcond : ¬ (psl (joinLabels (l :: rest)) ≠ joinLabels (l :: rest) ∧
          psl (joinLabels (l :: rest)) ≠ "") := by
        rcases hps with h | h <;> simp [h]
      simp [caaCheckLabels, caaCheckStep, hdb, hcond]
  · intro db psl s rest wildcard rrs hchild hps1 hps2 hparent hlen hcu hperm
    have hstep : (caaCheckLabels db psl (s :: rest) wildcard).1 =
        (caaCheckLabels db psl rest false).1 := by
      simp [caaCheckLabels, caaCheckStep, hchild, hps1, hps2]
    rw [hstep]
    have hcu' : ¬ 0 < (caaCriticalUnknowns rrs).length := by omega
    rcases hperm with hz | hany
    · have hz2 : caaIssues rrs = [] := by
        cases h : caaIssues rrs
        · rfl
        · rw [h] at hz; simp at hz
      rw [show (caaCheckLabels db psl rest false).1 = [caaDebug rrs] from by
        cases rest <;> simp [caaCheckLabels, caaCheckStep, hparent, hlen, hcu', hz2]]
      intro p hp
      simp at hp
      rw [hp]
      rfl
    · by_cases hz : caaIssues rrs = []
      · rw [show (caaCheckLabels db psl rest false).1 = [caaDebug rrs] from by
          cases rest <;>
            simp [caaCheckLabels, caaCheckStep, hparent, hlen, hcu', hz]]
        intro p hp
        simp at hp
        rw [hp]
        rfl
      · rw [show (caaCheckLabels db psl rest false).1 = [caaDebug rrs] from by
          cases rest <;>
            simp [caaCheckLabels, caaCheckStep, hparent, hlen, hcu', hz, hany]]
        intro p hp
        simp at hp
        rw [hp]
        rfl

/-- Witness for C7 (amended) at concrete inputs: the denying parent
record yields exactly one Fatal CAAIssuanceNotAllowed with the record in
Detail; a critical unknown record is Fatal; a non-wildcard domain whose
only record is issuewild-tagged (empty selected set) gets no Fatal, just
the Debug dump; the walk recurses from sub.example.org to example.org;
and the inherited-permission scenario yields only Debug-severity
problems. -/
theorem caaChecker_policy_witness :
    (caaCheckLabels caaDbDenied pslOrg ["example", "org"] false).1 =
      [caaDebug [RR.caa ⟨0, "issue", "othertrustca.com"⟩],
        caaIssuanceNotAllowed "example.org" false
          [⟨0, "issue", "othertrustca.com"⟩]] ∧
    (caaCriticalUnknown "example.org" false [⟨1, "issuemail", "x"⟩]).Severity =
      SeverityFatal ∧
    (caaCheckLabels (fun _ => .ok [RR.caa ⟨0, "issuewild", "notle.example"⟩])
        pslOrg ["example", "org"] false).1 =
      [caaDebug [RR.caa ⟨0, "issuewild", "notle.example"⟩]] ∧
    (caaCheckLabels caaDbInherited pslOrg ["sub", "example", "org"] false).1 =
      (caaCheckLabels caaDbInherited pslOrg ["example", "org"] false).1 ∧
    (∀ p ∈ (caaCheckLabels caaDbInherited pslOrg ["sub", "example", "org"] false).1,
      p.Severity = "Debug") := by
  refine ⟨?_, ?_, ?_, ?_, ?_⟩
  · have := (caaChecker_policy.2.2.1 caaDbDenied pslOrg ["example", "org"] false
      [RR.caa ⟨0, "issue", "othertrustca.com"⟩] rfl (by decide)
      (by decide) (by decide) (by decide)).1
    simpa using this
  · exact (caaChecker_policy.1
      (fun _ => .ok [RR.caa ⟨1, "issuemail", "x"⟩]) pslOrg ["example", "org"]
      false [RR.caa ⟨1, "issuemail", "x"⟩] rfl (by decide) (by decide)).2
  · exact caaChecker_policy.2.2.2.1
      (fun _ => .ok [RR.caa ⟨0, "issuewild", "notle.example"⟩]) pslOrg
      ["example", "org"] [RR.caa ⟨0, "issuewild", "notle.example"⟩]
      rfl (by decide) (by decide) (by decide)
  · exact caaChecker_policy.2.2.2.2.2.1 caaDbInherited pslOrg "sub"
      ["example", "org"] false rfl (by decide) (by decide)
  · exact caaChecker_policy.2.2.2.2.2.2.2 caaDbInherited pslOrg "sub"
      ["example", "org"] false [RR.caa ⟨0, "issue", "letsencrypt.org"⟩]
      rfl (by decide) (by decide) rfl (by decide) (by decide)
      (by decide)

/-! ## The registered checkers (checker.go, dns01.go, http01.go latest
revision = src/unnamed/part_014) -/

/-- httpCheckResult (http_util.go lines 26-35); `FirstDial` (a wall-clock
timestamp only used to compute trace offsets) is omitted, `Content` is
the body as a string. -/
structure httpCheckResult where
  StatusCode : Nat
  ServerHeader : String
  IP : IP
  InitialStatusCode : Nat
  NumRedirects : Nat
  DialStack : List String
  Content : String
  deriving DecidableEq, Repr

/-- Go's zero value `var r httpCheckResult`. -/
def httpCheckResult.zero : httpCheckResult := ⟨0, "", ⟨false, "", false⟩, 0, 0, [], ""⟩

/-- httpCheckResult.IsZero (http_util.go lines 45-47). -/
def httpCheckResult.IsZero (r : httpCheckResult) : Bool := r.StatusCode == 0

/-- httpCheckResult.String (http_util.go lines 49-67). -/
def httpCheckResult.string (r : httpCheckResult) : String :=
  let addrType := if r.IP.v4 then "IPv4" else "IPv6"
  let lines := ["Address=" ++ r.IP.str, "Address Type=" ++ addrType,
    "Server=" ++ r.ServerHeader, "HTTP Status=" ++ toString r.InitialStatusCode]
  let lines := if r.NumRedirects > 0 then
      lines ++ ["Number of Redirects=" ++ toString r.NumRedirects,
        "Final HTTP Status=" ++ toString r.StatusCode]
    else lines
  "[" ++ String.intercalate "," lines ++ "]"

/-- noRecords (src/unnamed/part_014 lines 140-149): Fatal. -/
def noRecords (name rrSummary : String) : Problem :=
  { Name := "NoRecords"
    Explanation := "No valid A or AAAA records could be ultimately resolved " ++
      "for " ++ name ++ ". This means that Let\x27s Encrypt would not be " ++
      "able to to connect to your domain to perform HTTP validation, since " ++
      "it would not know where to connect to."
    Detail := rrSummary
    Severity := SeverityFatal }

/-- reservedAddress (src/unnamed/part_014 lines 151-160): Fatal. -/
def reservedAddress (name address : String) : Problem :=
  { Name := "ReservedAddress"
    Explanation := "A private, inaccessible, IANA/IETF-reserved IP address " ++
      "was found for " ++ name ++ ". Let\x27s Encrypt will always fail HTTP " ++
      "validation for any domain that is pointing to an address that is not " ++
      "routable on the internet. You should either remove this address and " ++
      "replace it with a public one or use the DNS validation method instead."
    Detail := address
    Severity := SeverityFatal }

/-- v4v6Discrepancy (src/unnamed/part_014 lines 162-172): Warning. -/
def v4v6Discrepancy (domain : String) (v4Result v6Result : httpCheckResult) :
    Problem :=
  { Name := "IPv4IPv6Discrepancy"
    Explanation := domain ++ " has both AAAA (IPv6) and A (IPv4) records. " ++
      "While they both appear to be accessible on the network, we have " ++
      "detected that they produce differing results when sent an ACME HTTP " ++
      "validation request. This may indicate that the IPv4 and IPv6 " ++
      "addresses may unintentionally point to different servers, which " ++
      "would cause validation to fail."
    Detail := v4Result.string ++ " vs " ++ v6Result.string
    Severity := SeverityWarning }

/-- Modelled from the spec: `validationDisabled`, the Fatal Problem the
disabled-method checker produces. The definition registered in checker.go
is not under src/; src's tlssni0102Checker (tlssni0102.go lines 11-19, an
older revision using a `Priority` field) and the spec's "two
permanently-disabled legacy values kept only to produce a fatal
'disabled' Problem" fix its shape. -/
def validationDisabled (method url : String) : Problem :=
  { Name := "ValidationMethodDisabled"
    Explanation := "The validation method provided (" ++ method ++ ") has " ++
      "been disabled by Let\x27s Encrypt. For more information, please " ++
      "visit the url in the details."
    Detail := url
    Severity := SeverityFatal }

/-- Modelled from the spec: `tlssni0102DisabledChecker` is registered in
checker.go's init but its definition is not under src/; src's closely
related tlssni0102Checker (tlssni0102.go lines 21-30) and the spec give
its behavior: not applicable unless the method is tls-sni-01 or
tls-sni-02, otherwise one Fatal ValidationMethodDisabled Problem. -/
def tlssni0102DisabledChecker.Check (_domain method : String) :
    List Query × CheckerResult :=
  if method ≠ "tls-sni-01" ∧ method ≠ "tls-sni-02" then
    ([], .ret [] (some .notApplicable))
  else
    ([], .ret [validationDisabled method
      "https://community.letsencrypt.org/t/important-what-you-need-to-know-about-tls-sni-validation-issues/50811"]
      none)

/-- wildcardHttp01 (dns01.go lines 25-32): Fatal. -/
def wildcardHttp01 (domain method : String) : Problem :=
  { Name := "MethodNotSuitable"
    Explanation := "A wildcard domain like " ++ domain ++ " can only be " ++
      "issued using a dns-01 validation method."
    Detail := "Invalid method: " ++ method
    Severity := SeverityFatal }

/-- wildcardDns01OnlyChecker.Check (dns01.go lines 13-23). -/
def wildcardDns01OnlyChecker.Check (domain method : String) :
    List Query × CheckerResult :=
  if goHasWildcardPrefix domain = false then ([], .ret [] (some .notApplicable))
  else if method = "dns-01" then ([], .ret [] (some .notApplicable))
  else ([], .ret [wildcardHttp01 domain method] none)

/-- The validMethods set (generic.go line 36 / checker.go line 18). -/
def validMethods (m : String) : Bool :=
  m == "http-01" || m == "dns-01" || m == "tls-sni-01" || m == "tls-sni-02"

/-- notValidMethod (generic.go lines 43-54): Fatal. Go iterates the map
in arbitrary order to render the supported list; the declaration order is
used here. -/
def notValidMethod (method : String) : Problem :=
  { Name := "InvalidMethod"
    Explanation := "\"" ++ method ++ "\" is not a supported validation method."
    Detail := "Supported methods: http-01, dns-01, tls-sni-01, tls-sni-02"
    Severity := SeverityFatal }

/-- validMethodChecker.Check (generic.go lines 35-41): not applicable for
a valid method, one Fatal InvalidMethod problem otherwise. This checker
is defined in generic.go but does NOT appear in checker.go's registered
checkers list. -/
def validMethodChecker.Check (_domain method : String) :
    List Query × CheckerResult :=
  if validMethods method then ([], .ret [] (some .notApplicable))
  else ([], .ret [notValidMethod method] none)

/-- The type assertion `rr.(*dns.A)`. -/
def RR.toA : RR → Option IP
  | .a ip => some ip
  | _ => none

/-- The type assertion `rr.(*dns.AAAA)`. -/
def RR.toAAAA : RR → Option IP
  | .aaaa ip => some ip
  | _ => none

/-- dnsAChecker.Check (src/unnamed/part_014 lines 16-72): applicable for
http-01 only; looks up AAAA and A (concurrently in Go, joined before
use); reports a Fatal DNSLookupFailed per failed lookup (A first),
a Fatal ReservedAddress per reserved address, a Debug record dump when
any record exists and a Fatal NoRecords when none does. -/
def dnsAChecker.Check (db : Query → Except String (List RR))
    (domain method : String) : List Query × CheckerResult :=
  if method ≠ "http-01" then ([], .ret [] (some .notApplicable))
  else
    let aaaa := db (domain, 28)
    let a := db (domain, 1)
    let aaaaRRs := match aaaa with | .ok rrs => rrs | .error _ => []
    let aRRs := match a with | .ok rrs => rrs | .error _ => []
    let errProbs :=
      (match a with | .error e => [dnsLookupFailed domain "A" e] | .ok _ => []) ++
      (match aaaa with | .error e => [dnsLookupFailed domain "AAAA" e] | .ok _ => [])
    let reservedProbs :=
      ((aRRs.filterMap RR.toA).filter isAddressReserved).map
        (fun ip => reservedAddress domain ip.str) ++
      ((aaaaRRs.filterMap RR.toAAAA).filter isAddressReserved).map
        (fun ip => reservedAddress domain ip.str)
    let sb := (aRRs ++ aaaaRRs).map RR.string
    let tailProbs :=
      if 0 < sb.length then
        [debugProblem "HTTPRecords" "A and AAAA records found for this domain"
          (String.intercalate "\n" sb)]
      else [noRecords domain "No A or AAAA records found."]
    ([(domain, 28), (domain, 1)],
      .ret (errProbs ++ reservedProbs ++ tailProbs) none)

/-- The per-address loop of httpAccessibilityChecker.Check
(src/unnamed/part_014 lines 117-129): probe each address, append the
problem only when it is not the zero sentinel, track the first IPv4 and
first remaining response, and record a debug line. -/
def httpCheckLoop (prober : String → IP → httpCheckResult × Problem)
    (domain : String) :
    List IP → httpCheckResult → httpCheckResult → List Problem →
      List String → List Problem × httpCheckResult × httpCheckResult × List String
  | [], v4Res, v6Res, probs, debug => (probs, v4Res, v6Res, debug)
  | ip :: rest, v4Res, v6Res, probs, debug =>
    let (res, prob) := prober domain ip
    let probs' := if prob.IsZero then probs else probs ++ [prob]
    let track :=
      if v4Res.IsZero && ip.v4 then (res, v6Res)
      else if v6Res.IsZero then (v4Res, res)
      else (v4Res, v6Res)
    let debug' := debug ++ ["Request to: " ++ domain ++ "/" ++ ip.str ++
      ", Result: " ++ res.string ++ ", Issue: " ++ prob.Name]
    httpCheckLoop prober domain rest track.1 track.2 probs' debug'

/-- httpAccessibilityChecker.Check (src/unnamed/part_014 lines 80-138):
applicable for http-01 only; gathers the AAAA then A addresses (lookup
errors ignored), returns no problem when there is no address, otherwise
probes every address via checkHTTP (abstracted as `prober`), filters the
zero sentinel, reports a Warning IPv4IPv6Discrepancy when the tracked
IPv4 and IPv6 responses differ in status or server header, and appends a
Debug dump of all requests made. -/
def httpAccessibilityChecker.Check (db : Query → Except String (List RR))
    (prober : String → IP → httpCheckResult × Problem)
    (domain method : String) : List Query × CheckerResult :=
  if method ≠ "http-01" then ([], .ret [] (some .notApplicable))
  else
    let aaaaRRs := match db (domain, 28) with | .ok rrs => rrs | .error _ => []
    let aRRs := match db (domain, 1) with | .ok rrs => rrs | .error _ => []
    let ips := aaaaRRs.filterMap RR.toAAAA ++ aRRs.filterMap RR.toA
    if ips.length = 0 then ([(domain, 28), (domain, 1)], .ret [] none)
    else
      let loopRes := httpCheckLoop prober domain ips
        httpCheckResult.zero httpCheckResult.zero [] []
      let v4Res := loopRes.2.1
      let v6Res := loopRes.2.2.1
      let probs :=
        if (!v4Res.IsZero && !v6Res.IsZero) &&
            (v4Res.StatusCode != v6Res.StatusCode ||
              v4Res.ServerHeader != v6Res.ServerHeader) then
          loopRes.1 ++ [v4v6Discrepancy domain v4Res v6Res]
        else loopRes.1
      ([(domain, 28), (domain, 1)],
        .ret (probs ++ [debugProblem "HTTPCheck" "Requests made to the domain"
          (String.intercalate "\n" loopRes.2.2.2)]) none)

/-- The registered checkers list (checker.go lines 23-34): the
show-stopping checkers tlssni0102Disabled, wildcardDns01Only and caa,
then dnsA and httpAccessibility. Note validMethodChecker is NOT in this
list. -/
def checkers (db : Query → Except String (List RR)) (psl : String → String)
    (prober : String → IP → httpCheckResult × Problem) : List Checker :=
  [tlssni0102DisabledChecker.Check,
   wildcardDns01OnlyChecker.Check,
   caaChecker.Check db psl,
   dnsAChecker.Check db,
   httpAccessibilityChecker.Check db prober]

/-- Claim C8 is a code bug: scanning example.com with the unknown method
tls-sni-03 over the registered checkers list issues DNS resolutions (the
CAA checker queries example.com and com) and the scan completes with no
Problem at all — in particular no Fatal InvalidMethod — because
validMethodChecker, although defined in generic.go exactly to reject
unknown methods with a Fatal Problem before anything else runs, is absent
from checker.go's registered list. -/
theorem unknown_method_reaches_network :
    Check
        (checkers (fun _ => .ok []) (fun _ => "com")
          (fun _ _ => (httpCheckResult.zero, Problem.zero)))
        "example.com" "tls-sni-03" =
      ⟨[], none, 5, [("example.com", 257), ("com", 257)]⟩ ∧
    validMethods "tls-sni-03" = false ∧
    validMethodChecker.Check "example.com" "tls-sni-03" =
      ([], .ret [notValidMethod "tls-sni-03"] none) ∧
    (notValidMethod "tls-sni-03").Severity = SeverityFatal := by
  refine ⟨by decide, by decide, by decide, rfl⟩

/-! ## The zero-Problem sentinel is never emitted (claim C9) -/

/-- The problem list of a checker's return value. -/
def resultProbs : CheckerResult → List Problem
  | .ret ps _ => ps
  | .panics _ => []

/-- Helper: one step of the CAA walk emits no zero Problem provided the
parent result contains none. -/
theorem caaCheckStep_no_zero (db : Query → Except String (List RR))
    (psl : String → String) (labels : List String) (wildcard : Bool)
    (parent : List Problem × List Query)
    (hparent : ∀ p ∈ parent.1, p.IsZero = false) :
    ∀ p ∈ (caaCheckStep db psl labels wildcard parent).1, p.IsZero = false := by
  intro p hp
  rcases hdb : db (joinLabels labels, 257) with e | rrs <;>
    simp only [caaCheckStep, hdb] at hp
  · simp at hp
    rw [hp]
    rfl
  · split at hp
    · split at hp
      · simp at hp
        rcases hp with hp | hp <;> rw [hp] <;> rfl
      · split at hp
        · simp at hp
          rw [hp]
          rfl
        · split at hp
          · simp at hp
            rw [hp]
            rfl
          · simp at hp
            rcases hp with hp | hp <;> rw [hp] <;> rfl
    · split at hp
      · simp at hp
      · split at hp
        · exact hparent p hp
        · simp at hp

/-- Helper: the CAA walk emits no zero Problem. -/
theorem caaCheckLabels_no_zero (db : Query → Except String (List RR))
    (psl : String → String) :
    ∀ (labels : List String) (wildcard : Bool),
      ∀ p ∈ (caaCheckLabels db psl labels wildcard).1, p.IsZero = false := by
  intro labels
  induction labels with
  | nil =>
    intro wildcard
    exact caaCheckStep_no_zero db psl [] wildcard ([], []) (by simp)
  | cons l rest ih =>
    intro wildcard
    exact caaCheckStep_no_zero db psl (l :: rest) wildcard
      (caaCheckLabels db psl rest false) (ih false)

/-- Helper: the probe loop of httpAccessibilityChecker emits no zero
Problem beyond those already accumulated — the `!prob.IsZero()` filter
discards the sentinel before it is appended. -/
theorem httpCheckLoop_no_zero (prober : String → IP → httpCheckResult × Problem)
    (domain : String) :
    ∀ (ips : List IP) (v4Res v6Res : httpCheckResult) (probs : List Problem)
      (debug : List String),
      (∀ p ∈ probs, p.IsZero = false) →
      ∀ p ∈ (httpCheckLoop prober domain ips v4Res v6Res probs debug).1,
        p.IsZero = false := by
  intro ips
  induction ips with
  | nil =>
    intro v4Res v6Res probs debug hacc p hp
    simp only [httpCheckLoop] at hp
    exact hacc p hp
  | cons ip rest ih =>
    intro v4Res v6Res probs debug hacc p hp
    simp only [httpCheckLoop] at hp
    refine ih _ _ _ _ ?_ p hp
    by_cases hz : (prober domain ip).2.IsZero = true
    · simpa [hz] using hacc
    · have hz' : (prober domain ip).2.IsZero = false := by simpa using hz
      simp only [hz', if_false, Bool.false_eq_true]
      intro q hq
      rcases List.mem_append.mp hq with h | h
      · exact hacc q h
      · simp at h
        rw [h, ← hz']

/-- Claim C9: the zero-value Problem (empty Name) is only the internal
"no problem" sentinel — checkHTTP's success return value, recognized by
IsZero — and is never contained in any checker's returned result list:
every Problem built by translateHTTPError or unexpectedHttpResponse has a
non-empty Name, and each embedded checker (the disabled-method, wildcard,
valid-method, CAA, DNS-A and HTTP-accessibility checkers, the last for
every prober, including ones that return the zero sentinel) returns only
Problems with IsZero false. -/
theorem no_zero_problem_emitted :
    Problem.zero.IsZero = true ∧
    (∀ (domain : String) (address : IP) (e : HTTPError)
        (dialStack : List String),
        (translateHTTPError domain address e dialStack).IsZero = false) ∧
    (∀ (domain httpStatus httpBody : String) (dialStack : List String),
        (unexpectedHttpResponse domain httpStatus httpBody dialStack).IsZero =
          false) ∧
    (∀ d m, ∀ p ∈ resultProbs (tlssni0102DisabledChecker.Check d m).2,
        p.IsZero = false) ∧
    (∀ d m, ∀ p ∈ resultProbs (wildcardDns01OnlyChecker.Check d m).2,
        p.IsZero = false) ∧
    (∀ d m, ∀ p ∈ resultProbs (validMethodChecker.Check d m).2,
        p.IsZero = false) ∧
    (∀ (db : Query → Except String (List RR)) (psl : String → String) (d m : String),
        ∀ p ∈ resultProbs (caaChecker.Check db psl d m).2, p.IsZero = false) ∧
    (∀ (db : Query → Except String (List RR)) (d m : String),
        ∀ p ∈ resultProbs (dnsAChecker.Check db d m).2, p.IsZero = false) ∧
    (∀ (db : Query → Except String (List RR))
        (prober : String → IP → httpCheckResult × Problem) (d m : String),
        ∀ p ∈ resultProbs (httpAccessibilityChecker.Check db prober d m).2,
        p.IsZero = false) := by
  refine ⟨rfl, ?_, ?_, ?_, ?_, ?_, ?_, ?_, ?_⟩
  · intro domain address e dialStack
    rcases e with msg | ⟨msg, t⟩
    · rfl
    · simp only [translateHTTPError]
      split
      · rfl
      · split <;> rfl
  · intro domain httpStatus httpBody dialStack
    rfl
  · intro d m p hp
    simp only [tlssni0102DisabledChecker.Check] at hp
    split at hp <;> simp [resultProbs] at hp
    rw [hp]
    rfl
  · intro d m p hp
    simp only [wildcardDns01OnlyChecker.Check] at hp
    split at hp
    · simp [resultProbs] at hp
    · split at hp <;> simp [resultProbs] at hp
      rw [hp]
      rfl
  · intro d m p hp
    simp only [validMethodChecker.Check] at hp
    split at hp <;> simp [resultProbs] at hp
    rw [hp]
    rfl
  · intro db psl d m p hp
    simp only [caaChecker.Check, resultProbs] at hp
    exact caaCheckLabels_no_zero db psl _ _ p hp
  · intro db d m p hp
    simp only [dnsAChecker.Check] at hp
    split at hp
    · simp [resultProbs] at hp
    · simp only [resultProbs] at hp
      rcases List.mem_append.mp hp with h | h
      · rcases List.mem_append.mp h with h1 | h1
        · rcases List.mem_append.mp h1 with h2 | h2
          · rcases hdb : db (d, 1) with e | rrs <;> rw [hdb] at h2 <;> simp at h2
            rw [h2]
            rfl
          · rcases hdb : db (d, 28) with e | rrs <;> rw [hdb] at h2 <;> simp at h2
            rw [h2]
            rfl
        · rcases List.mem_append.mp h1 with h2 | h2 <;>
            · obtain ⟨ip, -, hip⟩ := List.mem_map.mp h2
              rw [← hip]
              rfl
      · split at h
        · simp at h
          rw [h]
          rfl
        · simp at h
          rw [h]
          rfl
  · intro db prober d m p hp
    simp only [httpAccessibilityChecker.Check] at hp
    split at hp
    · simp [resultProbs] at hp
    · split at hp
      · simp [resultProbs] at hp
      · simp only [resultProbs] at hp
        rcases List.mem_append.mp hp with h | h
        · split at h
          · rcases List.mem_append.mp h with h' | h'
            · exact httpCheckLoop_no_zero prober d _ _ _ _ _ (by simp) p h'
            · simp at h'
              rw [h']
              rfl
          · exact httpCheckLoop_no_zero prober d _ _ _ _ _ (by simp) p h
        · simp at h
          rw [h]
          rfl

/-- Witness for C9 at concrete inputs: a concrete HTTP-accessibility run
whose prober returns the zero sentinel emits only the non-zero Debug
request dump, and a concrete translated error is non-zero. -/
theorem no_zero_problem_emitted_witness :
    (debugProblem "HTTPCheck" "Requests made to the domain"
      ("Request to: example.org/192.0.2.1, Result: " ++
        (httpCheckResult.zero).string ++ ", Issue: ")).IsZero = false ∧
    (translateHTTPError "example.org" ⟨true, "192.0.2.1", false⟩
      (.generic "connection refused" false) []).IsZero = false :=
  ⟨no_zero_problem_emitted.2.2.2.2.2.2.2.2
      (fun q => if q = ("example.org", 1) then .ok [RR.a ⟨true, "192.0.2.1", false⟩]
        else .ok [])
      (fun _ _ => (httpCheckResult.zero, Problem.zero)) "example.org" "http-01"
      (debugProblem "HTTPCheck" "Requests made to the domain"
        ("Request to: example.org/192.0.2.1, Result: " ++
          (httpCheckResult.zero).string ++ ", Issue: "))
      (by decide),
   no_zero_problem_emitted.2.1 "example.org" ⟨true, "192.0.2.1", false⟩
      (.generic "connection refused" false) []⟩

/-! ## normalizeFqdn removes at most one trailing dot (claim C10) -/

/-- Helper: trimming whitespace never consumes trailing dots — an input
whose characters end in two dots still ends in two dots afterwards. -/
theorem trimSpace_dots (s : String) (l : List Char)
    (h : s.data = l ++ ['.', '.']) :
    ∃ z, (trimSpace s).data = z ++ ['.', '.'] := by
  have hstep : ∃ z, s.data.dropWhile goIsSpace = z ++ ['.', '.'] := by
    rw [h, List.dropWhile_append]
    split
    · exact ⟨[], by decide⟩
    · exact ⟨l.dropWhile goIsSpace, rfl⟩
  obtain ⟨z, hz⟩ := hstep
  refine ⟨z, ?_⟩
  show ((s.data.dropWhile goIsSpace).reverse.dropWhile goIsSpace).reverse =
    z ++ ['.', '.']
  rw [hz]
  have hrev : (z ++ ['.', '.']).reverse = '.' :: '.' :: z.reverse := by simp
  rw [hrev, List.dropWhile_cons]
  simp [goIsSpace]

/-- A checker that reports the domain string it was invoked with. -/
def domainSpyChecker : Checker :=
  fun dom _ => ([], .ret [⟨dom, "", "", ""⟩] none)

/-- Claim C10: normalizeFqdn is exactly lowercasing after trimming the
surrounding whitespace and removing a single trailing dot (if present);
consequently an input whose characters end in two or more dots — two
suffice — still ends in a dot after normalization; and Check invokes
every checker with the normalized domain (observed through a spy
checker). -/
theorem normalizeFqdn_single_dot :
    (∀ s : String, normalizeFqdn s = goToLower (trimSuffixDot (trimSpace s))) ∧
    (∀ (s : String) (l : List Char), s.data = l ++ ['.', '.'] →
        (normalizeFqdn s).data.getLast? = some '.') ∧
    (∀ d m : String,
        (Check [domainSpyChecker] d m).probs = [⟨normalizeFqdn d, "", "", ""⟩]) := by
  refine ⟨fun s => rfl, ?_, ?_⟩
  · intro s l h
    obtain ⟨z, hz⟩ := trimSpace_dots s l h
    have hlast : (trimSpace s).data.getLast? = some '.' := by
      rw [hz, List.getLast?_append_of_ne_nil _ (by decide)]
      decide
    show ((trimSuffixDot (trimSpace s)).data.map Char.toLower).getLast? = some '.'
    rw [trimSuffixDot, if_pos hlast]
    have hdrop : (trimSpace s).data.dropLast = z ++ ['.'] := by
      rw [hz, show z ++ ['.', '.'] = (z ++ ['.']) ++ ['.'] from by simp,
        List.dropLast_concat]
    show (((⟨(trimSpace s).data.dropLast⟩ : String)).data.map Char.toLower).getLast? =
      some '.'
    rw [show ((⟨(trimSpace s).data.dropLast⟩ : String)).data =
      (trimSpace s).data.dropLast from rfl, hdrop]
    rw [List.map_append, List.getLast?_append_of_ne_nil _ (by decide)]
    decide
  · intro d m
    rfl

/-- Witness for C10 at a concrete input: " ExAmple.ORG.." normalizes with
exactly one dot removed and still ends in a dot, and the spy checker
observes the normalized domain. -/
theorem normalizeFqdn_single_dot_witness :
    normalizeFqdn " ExAmple.ORG.." =
      goToLower (trimSuffixDot (trimSpace " ExAmple.ORG..")) ∧
    (normalizeFqdn " ExAmple.ORG..").data.getLast? = some '.' ∧
    (Check [domainSpyChecker] " ExAmple.ORG.." "http-01").probs =
      [⟨normalizeFqdn " ExAmple.ORG..", "", "", ""⟩] :=
  ⟨normalizeFqdn_single_dot.1 " ExAmple.ORG..",
   normalizeFqdn_single_dot.2.1 " ExAmple.ORG.." (" ExAmple.ORG".data) (by decide),
   normalizeFqdn_single_dot.2.2 " ExAmple.ORG.." "http-01"⟩

end Letsdebug
